import Mathlib

/-!
Shallow embedding of the Game Boy emulator core (memory bus, register file,
CPU helpers and the six instruction families) and verification of the
specification's claims about it.

Conventions of the embedding:
* Machine bytes (`u8`) and words (`u16`) are `Nat`; write paths reduce
  modulo 2^8 / 2^16 exactly where the Rust types truncate.
* Rust's unchecked `+` / `-` on machine integers overflow-checks in the
  profile the repository is built and tested with; such an operation is
  modelled as an `Option`-valued computation that is `none` on overflow.
  `wrapping_add` (used by `Cpu::advance_by`) wraps and stays total.
* A `todo!()` body aborts execution unconditionally; a function whose body
  is `todo!()` is modelled as the constant `none`.
* Mutating methods become state-passing functions: a `&mut self` method
  returns the new state (paired with the read value where there is one).
-/

namespace GB

/-- Rust `a + b` on `u8`: overflow aborts (checked profile). -/
def rustAddU8 (a b : Nat) : Option Nat :=
  if a + b ≤ 0xFF then some (a + b) else none

/-- Rust `a + b` on `u16`: overflow aborts (checked profile). -/
def rustAddU16 (a b : Nat) : Option Nat :=
  if a + b ≤ 0xFFFF then some (a + b) else none

/-- Rust `a - b` on `u16`: underflow aborts (checked profile). -/
def rustSubU16 (a b : Nat) : Option Nat :=
  if b ≤ a then some (a - b) else none

/-- Rust `u16::wrapping_add`. -/
def wrappingAddU16 (a b : Nat) : Nat := (a + b) % 0x10000

/-- Rust `u16::from_be_bytes([hi, lo])`. -/
def u16FromBeBytes (hi lo : Nat) : Nat := hi * 256 + lo

/-- High byte of `u16::to_be_bytes`. -/
def u16HighByte (v : Nat) : Nat := v / 256 % 256

/-- Low byte of `u16::to_be_bytes`. -/
def u16LowByte (v : Nat) : Nat := v % 256

/-- Reinterpret a byte as `i8` (`i8::from_be_bytes([n])`). -/
def i8OfByte (n : Nat) : Int := if n % 256 < 128 then (n % 256 : Int) else (n % 256 : Int) - 256

/-- Reinterpret an `i8` value as its unsigned byte (`i8::to_be_bytes`). -/
def byteOfI8 (d : Int) : Nat := (d % 256).toNat

/-- Rust `i8::abs`: aborts on `-128` (checked profile), else the absolute value. -/
def rustAbsI8 (d : Int) : Option Int :=
  if d = -128 then none else some |d|

/-- Reinterpret an `i16` value as `u16` (`to_ne_bytes` / `from_ne_bytes` round trip). -/
def u16OfI16 (d : Int) : Nat := (d % 0x10000).toNat

/-! ## Memory (src/memory/memory_section.rs and src/memory/mod.rs) -/

/-- `MemorySection<N>`: a zero-initialised byte array. The array is modelled
as a total map from offsets to bytes; the in-bounds discipline of the Rust
indexing is proved separately (claim on `Bank::from_addr` offsets). -/
structure MemorySection where
  mem : Nat → Nat

/-- `MemorySection::new` — all zeroes. -/
def MemorySection.new : MemorySection := ⟨fun _ => 0⟩

/-- `MemorySection::get`. -/
def MemorySection.get (s : MemorySection) (addr : Nat) : Nat := s.mem addr

/-- `MemorySection::set`. -/
def MemorySection.set (s : MemorySection) (addr value : Nat) : MemorySection :=
  ⟨fun x => if x = addr then value else s.mem x⟩

/-- The banks of `Memory` (enum `Bank`). -/
inductive Bank where
  | Rom
  | SwitchableRom
  | Vram
  | SwitchableRam
  | InternalRam
  | InternalRamEcho
  | Oam
  | Empty
  | IOPorts
  | EmptyTwo
  | InternalRamTwo
deriving DecidableEq, Repr

/-! Region start constants (`Memory::*_START`). -/

def ROM_BANK_START : Nat := 0x0000
def SWITCHABLE_ROM_BANK_START : Nat := 0x4000
def VRAM_START : Nat := 0x8000
def SWITCHABLE_RAM_BANK_START : Nat := 0xA000
def INTERNAL_RAM_START : Nat := 0xC000
def INTERNAL_RAM_ECHO_START : Nat := 0xE000
def OAM_START : Nat := 0xFE00
def EMPTY_START : Nat := 0xFEA0
def IO_PORTS_START : Nat := 0xFF00
def EMPTY_TWO_START : Nat := 0xFF4C
def INTERNAL_RAM_TWO_START : Nat := 0xFF80
def INTERRUPT_ENABLE_REGISTER_START : Nat := 0xFFFF

/-! Region size constants (`Memory::*_SIZE`). -/

def ROM_BANK_SIZE : Nat := SWITCHABLE_ROM_BANK_START - ROM_BANK_START
def SWITCHABLE_ROM_BANK_SIZE : Nat := VRAM_START - SWITCHABLE_ROM_BANK_START
def VRAM_SIZE : Nat := SWITCHABLE_RAM_BANK_START - VRAM_START
def SWITCHABLE_RAM_BANK_SIZE : Nat := INTERNAL_RAM_START - SWITCHABLE_RAM_BANK_START
def INTERNAL_RAM_SIZE : Nat := INTERNAL_RAM_ECHO_START - INTERNAL_RAM_START
def INTERNAL_RAM_ECHO_SIZE : Nat := OAM_START - INTERNAL_RAM_ECHO_START
def OAM_SIZE : Nat := EMPTY_START - OAM_START
def EMPTY_SIZE : Nat := IO_PORTS_START - EMPTY_START
def IO_PORTS_SIZE : Nat := EMPTY_TWO_START - IO_PORTS_START
def EMPTY_TWO_SIZE : Nat := INTERNAL_RAM_TWO_START - EMPTY_TWO_START
def INTERNAL_RAM_TWO_SIZE : Nat := INTERRUPT_ENABLE_REGISTER_START - INTERNAL_RAM_TWO_START

/-- Size of the backing array of each bank's `MemorySection`. -/
def Bank.size : Bank → Nat
  | .Rom => ROM_BANK_SIZE
  | .SwitchableRom => SWITCHABLE_ROM_BANK_SIZE
  | .Vram => VRAM_SIZE
  | .SwitchableRam => SWITCHABLE_RAM_BANK_SIZE
  | .InternalRam => INTERNAL_RAM_SIZE
  | .InternalRamEcho => INTERNAL_RAM_ECHO_SIZE
  | .Oam => OAM_SIZE
  | .Empty => EMPTY_SIZE
  | .IOPorts => IO_PORTS_SIZE
  | .EmptyTwo => EMPTY_TWO_SIZE
  | .InternalRamTwo => INTERNAL_RAM_TWO_SIZE

/-- `Bank::from_addr`: decode an address into a bank and an offset. The
range tests mirror the source's `Range::contains` calls verbatim; in
particular the third test uses the source's `VRAM_RANGE`, which is
`VRAM_START..SWITCHABLE_ROM_BANK_START` (an empty range, `0x8000..0x4000`). -/
def Bank.from_addr (addr : Nat) : Option (Bank × Nat) :=
  if ROM_BANK_START ≤ addr ∧ addr < SWITCHABLE_ROM_BANK_START then
    some (.Rom, addr - ROM_BANK_START)
  else if SWITCHABLE_ROM_BANK_START ≤ addr ∧ addr < VRAM_START then
    some (.SwitchableRom, addr - SWITCHABLE_ROM_BANK_START)
  else if VRAM_START ≤ addr ∧ addr < SWITCHABLE_ROM_BANK_START then
    some (.Vram, addr - VRAM_START)
  else if SWITCHABLE_RAM_BANK_START ≤ addr ∧ addr < INTERNAL_RAM_START then
    some (.SwitchableRam, addr - SWITCHABLE_RAM_BANK_START)
  else if INTERNAL_RAM_START ≤ addr ∧ addr < INTERNAL_RAM_ECHO_START then
    let a := addr - INTERNAL_RAM_START
    if a < INTERNAL_RAM_ECHO_SIZE then
      some (.InternalRamEcho, a)
    else
      some (.InternalRam, a)
  else if INTERNAL_RAM_ECHO_START ≤ addr ∧ addr < OAM_START then
    some (.InternalRamEcho, addr - INTERNAL_RAM_ECHO_START)
  else if OAM_START ≤ addr ∧ addr < EMPTY_START then
    some (.Oam, addr - OAM_START)
  else if EMPTY_START ≤ addr ∧ addr < IO_PORTS_START then
    some (.Empty, addr - EMPTY_START)
  else if IO_PORTS_START ≤ addr ∧ addr < EMPTY_TWO_START then
    some (.IOPorts, addr - IO_PORTS_START)
  else if EMPTY_TWO_START ≤ addr ∧ addr < INTERNAL_RAM_TWO_START then
    some (.EmptyTwo, addr - EMPTY_TWO_START)
  else if INTERNAL_RAM_TWO_START ≤ addr ∧ addr < INTERRUPT_ENABLE_REGISTER_START then
    some (.InternalRamTwo, addr - INTERNAL_RAM_TWO_START)
  else
    none

/-- `struct Memory`. -/
structure Memory where
  rom : MemorySection
  switchable_rom : MemorySection
  vram : MemorySection
  switchable_ram : MemorySection
  internal_ram : MemorySection
  internal_ram_echo : MemorySection
  oam : MemorySection
  empty : MemorySection
  io_ports : MemorySection
  empty_two : MemorySection
  internal_ram_two : MemorySection
  interrupt_enable_register : Nat

/-- `Memory::default` — every section zeroed, IE register zero. -/
def Memory.default : Memory :=
  ⟨.new, .new, .new, .new, .new, .new, .new, .new, .new, .new, .new, 0⟩

/-- `Memory::get`. -/
def Memory.get (m : Memory) (addr : Nat) : Nat :=
  match Bank.from_addr addr with
  | some (bank, a) =>
    match bank with
    | .Rom => m.rom.get a
    | .SwitchableRom => m.switchable_rom.get a
    | .Vram => m.vram.get a
    | .SwitchableRam => m.switchable_ram.get a
    | .InternalRam => m.internal_ram.get a
    | .InternalRamEcho => m.internal_ram_echo.get a
    | .Oam => m.oam.get a
    | .Empty => m.empty.get a
    | .IOPorts => m.io_ports.get a
    | .EmptyTwo => m.empty_two.get a
    | .InternalRamTwo => m.internal_ram_two.get a
  | none => m.interrupt_enable_register

/-- `Memory::put`. -/
def Memory.put (m : Memory) (addr value : Nat) : Memory :=
  match Bank.from_addr addr with
  | some (bank, a) =>
    match bank with
    | .Rom => { m with rom := m.rom.set a value }
    | .SwitchableRom => { m with switchable_rom := m.switchable_rom.set a value }
    | .Vram => { m with vram := m.vram.set a value }
    | .SwitchableRam => { m with switchable_ram := m.switchable_ram.set a value }
    | .InternalRam => { m with internal_ram := m.internal_ram.set a value }
    | .InternalRamEcho =>
      { m with internal_ram_echo := m.internal_ram_echo.set a value,
               internal_ram := m.internal_ram.set a value }
    | .Oam => { m with oam := m.oam.set a value }
    | .Empty => { m with empty := m.empty.set a value }
    | .IOPorts => { m with io_ports := m.io_ports.set a value }
    | .EmptyTwo => { m with empty_two := m.empty_two.set a value }
    | .InternalRamTwo => { m with internal_ram_two := m.internal_ram_two.set a value }
  | none => { m with interrupt_enable_register := value }

/-! ## Registers and flags (src/cpu/registers.rs, src/help_traits.rs) -/

/-- The 8-bit registers (enum `Register`). -/
inductive Register where
  | A | B | C | D | E | F | H | L
deriving DecidableEq, Repr

/-- The 16-bit registers (enum `LongRegister`). -/
inductive LongRegister where
  | AF | BC | DE | HL | SP | PC
deriving DecidableEq, Repr

/-- `struct Registers`: the pairs are stored as 16-bit words; byte access
goes through the big-endian byte views (A is the high byte of AF). -/
structure Registers where
  af : Nat
  bc : Nat
  de : Nat
  hl : Nat
  sp : Nat
  pc : Nat

/-- `Registers::default` — all zero. -/
def Registers.mkDefault : Registers := ⟨0, 0, 0, 0, 0, 0⟩

/-- `AccesBigEndianBytesU16::get_high`. -/
def getHigh (w : Nat) : Nat := w / 256 % 256

/-- `AccesBigEndianBytesU16::get_low`. -/
def getLow (w : Nat) : Nat := w % 256

/-- Write the high byte of a 16-bit word (`*get_high_mut() = byte`). -/
def setHigh (w byte : Nat) : Nat := byte % 256 * 256 + w % 256

/-- Write the low byte of a 16-bit word (`*get_low_mut() = byte`). -/
def setLow (w byte : Nat) : Nat := w / 256 % 256 * 256 + byte % 256

/-- `Registers::get`. -/
def Registers.get (r : Registers) : Register → Nat
  | .A => getHigh r.af
  | .B => getHigh r.bc
  | .C => getLow r.bc
  | .D => getHigh r.de
  | .E => getLow r.de
  | .F => getLow r.af
  | .H => getHigh r.hl
  | .L => getLow r.hl

/-- `Registers::set` (write through `get_mut`). -/
def Registers.set (r : Registers) (reg : Register) (byte : Nat) : Registers :=
  match reg with
  | .A => { r with af := setHigh r.af byte }
  | .B => { r with bc := setHigh r.bc byte }
  | .C => { r with bc := setLow r.bc byte }
  | .D => { r with de := setHigh r.de byte }
  | .E => { r with de := setLow r.de byte }
  | .F => { r with af := setLow r.af byte }
  | .H => { r with hl := setHigh r.hl byte }
  | .L => { r with hl := setLow r.hl byte }

/-- `Registers::get_long`. -/
def Registers.get_long (r : Registers) : LongRegister → Nat
  | .AF => r.af
  | .BC => r.bc
  | .DE => r.de
  | .HL => r.hl
  | .SP => r.sp
  | .PC => r.pc

/-- `Registers::set_long` (write through `get_long_mut`; the stored value
is the `u16` argument, reduced modulo 2^16). -/
def Registers.set_long (r : Registers) (reg : LongRegister) (value : Nat) : Registers :=
  match reg with
  | .AF => { r with af := value % 0x10000 }
  | .BC => { r with bc := value % 0x10000 }
  | .DE => { r with de := value % 0x10000 }
  | .HL => { r with hl := value % 0x10000 }
  | .SP => { r with sp := value % 0x10000 }
  | .PC => { r with pc := value % 0x10000 }

/-- The four flags (enum `Flags`). -/
inductive Flags where
  | Zero | Substract | HalfCarry | Carry
deriving DecidableEq, Repr

/-- `Into<u8> for Flags` — the bit masks. -/
def Flags.mask : Flags → Nat
  | .Zero => 0x80
  | .Substract => 0x40
  | .HalfCarry => 0x20
  | .Carry => 0x10

/-- `struct SetFlags`. -/
structure SetFlags where
  zero : Bool
  substract : Bool
  half_carry : Bool
  carry : Bool
deriving DecidableEq, Repr

/-- `SetFlags::default` — all false. -/
def SetFlags.mkDefault : SetFlags := ⟨false, false, false, false⟩

/-- `From<u8> for SetFlags`. -/
def SetFlags.ofByte (flags : Nat) : SetFlags :=
  ⟨flags &&& 0x80 = 0x80, flags &&& 0x40 = 0x40, flags &&& 0x20 = 0x20, flags &&& 0x10 = 0x10⟩

/-- `Into<u8> for SetFlags` — or together the masks of the set flags. -/
def SetFlags.toByte (f : SetFlags) : Nat :=
  ((((0 : Nat) ||| if f.zero then 0x80 else 0) ||| if f.substract then 0x40 else 0)
    ||| if f.half_carry then 0x20 else 0) ||| if f.carry then 0x10 else 0

/-- `Registers::get_flags`. -/
def Registers.get_flags (r : Registers) : SetFlags := .ofByte (r.get .F)

/-- `Registers::get_flag`. -/
def Registers.get_flag (r : Registers) : Flags → Bool
  | .Zero => r.get_flags.zero
  | .Substract => r.get_flags.substract
  | .HalfCarry => r.get_flags.half_carry
  | .Carry => r.get_flags.carry

/-- `Registers::set_flag` — or the mask into F. -/
def Registers.set_flag (r : Registers) (flag : Flags) : Registers :=
  r.set .F (r.get .F ||| flag.mask)

/-- `Registers::reset_flag` — and F with the complemented mask. -/
def Registers.reset_flag (r : Registers) (flag : Flags) : Registers :=
  r.set .F (r.get .F &&& (flag.mask ^^^ 0xFF))

/-- `Registers::set_flag_to`. -/
def Registers.set_flag_to (r : Registers) (flag : Flags) (value : Bool) : Registers :=
  if value then r.set_flag flag else r.reset_flag flag

/-- Modelled from the spec: `Registers::set_flags` is called from
`Cpu::set_flags` but is missing from the source tree. Per the spec's
register-file operations ("snapshot/restore full flag set"), restoring the
flag set writes the four flag bits into F's bits 7..4 (the `SetFlags` to
byte conversion), with the low nibble zero. -/
def Registers.set_flags (r : Registers) (flags : SetFlags) : Registers :=
  r.set .F flags.toByte

/-! ## Cpu (src/cpu/mod.rs) -/

/-- `struct Cpu`. The `Cyclic` component is modelled from the spec
(`src/cpu/cyclic.rs` is absent from the source tree): a monotonically
increasing T-cycle tally, advanced by 4 on each `cycle()` call. -/
structure Cpu where
  registers : Registers
  memory : Memory
  cycles : Nat

/-- `Cpu::default`. -/
def Cpu.mkDefault : Cpu := ⟨Registers.mkDefault, Memory.default, 0⟩

/-- `Cpu::cycle` — modelled from the spec: the cyclic counter gains 4 T-cycles. -/
def Cpu.cycle (c : Cpu) : Cpu := { c with cycles := c.cycles + 4 }

/-- `Cpu::get_reg`. -/
def Cpu.get_reg (c : Cpu) (reg : Register) : Nat := c.registers.get reg

/-- `Cpu::put_reg` (write through `get_reg_mut`). -/
def Cpu.put_reg (c : Cpu) (reg : Register) (value : Nat) : Cpu :=
  { c with registers := c.registers.set reg value }

/-- `Cpu::get_long_reg`. -/
def Cpu.get_long_reg (c : Cpu) (reg : LongRegister) : Nat := c.registers.get_long reg

/-- `Cpu::put_long_reg` (write through `get_long_reg_mut`). -/
def Cpu.put_long_reg (c : Cpu) (reg : LongRegister) (value : Nat) : Cpu :=
  { c with registers := c.registers.set_long reg value }

/-- `Cpu::get_reg_a`. -/
def Cpu.get_reg_a (c : Cpu) : Nat := c.get_reg .A

/-- `Cpu::put_reg_a`. -/
def Cpu.put_reg_a (c : Cpu) (value : Nat) : Cpu := c.put_reg .A value

/-- `Cpu::get_pc`. -/
def Cpu.get_pc (c : Cpu) : Nat := c.registers.get_long .PC

/-- `Cpu::set_pc` (write through `get_pc_mut`). -/
def Cpu.set_pc (c : Cpu) (value : Nat) : Cpu := c.put_long_reg .PC value

/-- `Cpu::advance_by` — PC is advanced with `wrapping_add`. -/
def Cpu.advance_by (c : Cpu) (delta : Nat) : Cpu :=
  c.set_pc (wrappingAddU16 c.get_pc delta)

/-- `Cpu::move_by` — the signed delta is reinterpreted as `u16` and added
with wrap-around. -/
def Cpu.move_by (c : Cpu) (delta : Int) : Cpu :=
  c.advance_by (u16OfI16 delta)

/-- `Cpu::get_memory` — one memory read, one cycle. -/
def Cpu.get_memory (c : Cpu) (addr : Nat) : Cpu × Nat :=
  (c.cycle, c.memory.get addr)

/-- `Cpu::put_memory` — one memory write, one cycle. -/
def Cpu.put_memory (c : Cpu) (addr value : Nat) : Cpu :=
  { c.cycle with memory := c.memory.put addr value }

/-- `Cpu::current_byte` — read the byte at PC. -/
def Cpu.current_byte (c : Cpu) : Cpu × Nat := c.get_memory c.get_pc

/-- `Cpu::advance` — read the byte at PC, then advance PC by 1. -/
def Cpu.advance (c : Cpu) : Cpu × Nat :=
  let (c1, byte) := c.current_byte
  (c1.advance_by 1, byte)

/-- `Cpu::advance_long` — two `advance` calls; the FIRST byte read (the
lower address) becomes the most significant byte (`from_be_bytes([msb, lsb])`). -/
def Cpu.advance_long (c : Cpu) : Cpu × Nat :=
  let (c1, msb) := c.advance
  let (c2, lsb) := c1.advance
  (c2, u16FromBeBytes msb lsb)

/-- `Cpu::get_relative` — read at `pc + delta`; the unchecked `u16`
addition aborts on overflow. -/
def Cpu.get_relative (c : Cpu) (delta : Nat) : Option (Cpu × Nat) := do
  let addr ← rustAddU16 c.get_pc delta
  pure (c.get_memory addr)

/-- `Cpu::get_at_hl`. -/
def Cpu.get_at_hl (c : Cpu) : Cpu × Nat := c.get_memory (c.get_long_reg .HL)

/-- `Cpu::put_at_hl`. -/
def Cpu.put_at_hl (c : Cpu) (value : Nat) : Cpu :=
  c.put_memory (c.get_long_reg .HL) value

/-- `Cpu::get_flags`. -/
def Cpu.get_flags (c : Cpu) : SetFlags := c.registers.get_flags

/-- `Cpu::set_flags`. -/
def Cpu.set_flags (c : Cpu) (flags : SetFlags) : Cpu :=
  { c with registers := c.registers.set_flags flags }

/-- `Cpu::get_flag`. -/
def Cpu.get_flag (c : Cpu) (flag : Flags) : Bool := c.registers.get_flag flag

/-- `Cpu::set_flag`. -/
def Cpu.set_flag (c : Cpu) (flag : Flags) : Cpu :=
  { c with registers := c.registers.set_flag flag }

/-- `Cpu::reset_flag`. -/
def Cpu.reset_flag (c : Cpu) (flag : Flags) : Cpu :=
  { c with registers := c.registers.reset_flag flag }

/-- `Cpu::set_flag_to`. -/
def Cpu.set_flag_to (c : Cpu) (flag : Flags) (value : Bool) : Cpu :=
  { c with registers := c.registers.set_flag_to flag value }

/-- `Cpu::get_long_at` — little-endian 16-bit read: low byte at `addr`,
high byte at `addr + 1` (unchecked `u16` addition). -/
def Cpu.get_long_at (c : Cpu) (addr : Nat) : Option (Cpu × Nat) := do
  let (c1, lsb) := c.get_memory addr
  let a2 ← rustAddU16 addr 1
  let (c2, msb) := c1.get_memory a2
  pure (c2, u16FromBeBytes msb lsb)

/-- `Cpu::put_long_at` — little-endian 16-bit write: low byte at `addr`,
high byte at `addr + 1` (unchecked `u16` addition). -/
def Cpu.put_long_at (c : Cpu) (addr value : Nat) : Option Cpu := do
  let c1 := c.put_memory addr (u16LowByte value)
  let a2 ← rustAddU16 addr 1
  pure (c1.put_memory a2 (u16HighByte value))

/-- `Cpu::get_next_long`. -/
def Cpu.get_next_long (c : Cpu) : Option (Cpu × Nat) := do
  let a ← rustAddU16 c.get_pc 1
  c.get_long_at a

/-- `Cpu::push_stack` — `sp - 2` is an unchecked `u16` subtraction. -/
def Cpu.push_stack (c : Cpu) (value : Nat) : Option Cpu := do
  let sp := c.get_long_reg .SP
  let addr ← rustSubU16 sp 2
  let c1 ← c.put_long_at addr value
  pure (c1.put_long_reg .SP addr)

/-- `Cpu::pop_stack` — `sp + 2` is an unchecked `u16` addition. -/
def Cpu.pop_stack (c : Cpu) : Option (Cpu × Nat) := do
  let sp := c.get_long_reg .SP
  let (c1, value) ← c.get_long_at sp
  let sp2 ← rustAddU16 sp 2
  pure (c1.put_long_reg .SP sp2, value)

/-- `Cpu::enable_interrupts` is `todo!()` — it aborts. -/
def Cpu.enable_interrupts (_ : Cpu) : Option Cpu := none

/-- `Cpu::disable_interrupts` is `todo!()` — it aborts. -/
def Cpu.disable_interrupts (_ : Cpu) : Option Cpu := none

/-! ## Instruction decoding helpers (src/instructions/mod.rs) -/

/-- `Registers::REGISTERS` indexing: the array
`[B, C, D, E, H, L, F, A]`. Every call site masks or shifts the index into
`0..8`; indices beyond 7 cannot occur there (the final arm stands for
index 7, `A`). -/
def registersAt (i : Nat) : Register :=
  match i with
  | 0 => .B
  | 1 => .C
  | 2 => .D
  | 3 => .E
  | 4 => .H
  | 5 => .L
  | 6 => .F
  | _ => .A

/-- `Registers::LONG_REGISTERS` indexing: the array `[BC, DE, HL, SP]`.
Call sites mask the index into `0..4` (the final arm stands for index 3, `SP`). -/
def longRegistersAt (i : Nat) : LongRegister :=
  match i with
  | 0 => .BC
  | 1 => .DE
  | 2 => .HL
  | _ => .SP

/-- `enum FetchRegister` — in the opcode encoding, the `F` slot stands for
the `(HL)` operand. -/
inductive FetchRegister where
  | Register (reg : Register)
  | AddrHL
deriving DecidableEq, Repr

/-- `From<u8> for FetchRegister`. -/
def FetchRegister.ofByte (value : Nat) : FetchRegister :=
  let reg := registersAt value
  if reg = .F then .AddrHL else .Register reg

/-! ## Arithmetic instructions (src/instructions/arithmetic.rs) -/

/-- `enum ArithmeticInstruction`. -/
inductive ArithmeticInstruction where
  | AddImmediate (n : Nat)
  | AddRegister (reg : Register)
  | AddAddrHL
  | SubImmediate (n : Nat)
  | SubRegister (reg : Register)
  | SubAddrHL
  | AddCarryImmediate (n : Nat)
  | AddCarryRegister (reg : Register)
  | AddCarryAddrHL
  | SubCarryImmediate (n : Nat)
  | SubCarryRegister (reg : Register)
  | SubCarryAddrHL
  | AndImmediate (n : Nat)
  | AndRegister (reg : Register)
  | AndAddrHL
  | OrImmediate (n : Nat)
  | OrRegister (reg : Register)
  | OrAddrHL
  | XorImmediate (n : Nat)
  | XorRegister (reg : Register)
  | XorAddrHL
  | CmpImmediate (n : Nat)
  | CmpRegister (reg : Register)
  | CmpAddrHL
  | IncRegister (reg : Register)
  | IncAddrHL
  | DecRegister (reg : Register)
  | DecAddrHL
  | AddHL (lr : LongRegister)
  | AddSPImmediate (n : Nat)
  | IncLongRegister (reg : LongRegister)
  | DecLongRegister (reg : LongRegister)
deriving DecidableEq, Repr

namespace ArithmeticInstruction

/-- `ArithmeticInstruction::add`. The half-carry line of the source is
`let half_carry = a & 0x0F + b & 0x0F > 0x0F;`, which by Rust operator
precedence is `((a & (0x0F + b)) & 0x0F) > 0x0F` — `0x0F + b` is an
unchecked `u8` addition. -/
def add (a b : Nat) : Option (Nat × SetFlags) := do
  let s ← rustAddU8 0x0F b
  let half_carry := decide (a &&& s &&& 0x0F > 0x0F)
  let value := (a + b) % 256
  let carry := decide (a + b > 0xFF)
  let zero := decide (value = 0)
  pure (value, ⟨zero, false, half_carry, carry⟩)

/-- `ArithmeticInstruction::add_carry` — a case split on 0xFF operands,
falling back to `add` with an unchecked `+ 1` on one operand. -/
def add_carry (a b : Nat) (carry : Bool) : Option (Nat × SetFlags) :=
  if carry then
    if a = 0xFF ∧ b = 0xFF then
      some (0xFF, ⟨false, false, true, true⟩)
    else if a = 0xFF then do
      let t ← rustAddU8 b 1
      add t 0xFF
    else if b = 0xFF then do
      let t ← rustAddU8 a 1
      add t 0xFF
    else do
      let t ← rustAddU8 a 1
      add t b
  else add a b

/-- `ArithmeticInstruction::sub` is `todo!()` — it aborts. -/
def sub (_ _ : Nat) : Option (Nat × SetFlags) := none

/-- `ArithmeticInstruction::sub_carry` is `todo!()` — it aborts. -/
def sub_carry (_ _ : Nat) (_ : Bool) : Option (Nat × SetFlags) := none

/-- `ArithmeticInstruction::inc` — `add a 1` with the carry flag restored. -/
def inc (a : Nat) (carry : Bool) : Option (Nat × SetFlags) := do
  let (value, flags) ← add a 1
  pure (value, { flags with carry := carry })

/-- `ArithmeticInstruction::dec` — `sub a 1` with the carry flag restored
(`sub` aborts, so this aborts). -/
def dec (a : Nat) (carry : Bool) : Option (Nat × SetFlags) := do
  let (value, flags) ← sub a 1
  pure (value, { flags with carry := carry })

/-- `ArithmeticInstruction::fetch_add`. -/
def fetch_add (opcode : Nat) : ArithmeticInstruction :=
  let i := opcode &&& 0b00000111
  let with_carry := opcode &&& 0b00001000 ≠ 0
  let reg := registersAt i
  if reg = .F then
    if with_carry then .AddCarryAddrHL else .AddAddrHL
  else
    if with_carry then .AddCarryRegister reg else .AddRegister reg

/-- `ArithmeticInstruction::fetch_sub`. -/
def fetch_sub (opcode : Nat) : ArithmeticInstruction :=
  let i := opcode &&& 0b00000111
  let with_carry := opcode &&& 0b00001000 ≠ 0
  let reg := registersAt i
  if reg = .F then
    if with_carry then .SubCarryAddrHL else .SubAddrHL
  else
    if with_carry then .SubCarryRegister reg else .SubRegister reg

/-- `ArithmeticInstruction::fetch_bitwise`. -/
def fetch_bitwise (opcode : Nat) : ArithmeticInstruction :=
  let i := opcode &&& 0b00000111
  let op := (opcode &&& 0b00011000) >>> 3
  let reg := registersAt i
  if reg = .F then
    match op with
    | 0 => .AndAddrHL
    | 1 => .XorAddrHL
    | 2 => .OrAddrHL
    | _ => .CmpAddrHL
  else
    match op with
    | 0 => .AndRegister reg
    | 1 => .XorRegister reg
    | 2 => .OrRegister reg
    | _ => .CmpRegister reg

/-- `ArithmeticInstruction::fetch_inc_dec`. -/
def fetch_inc_dec (opcode : Nat) : ArithmeticInstruction :=
  let dec := opcode &&& 0x01 = 0x01
  let i := (opcode &&& 0b00011100) >>> 2
  let reg := registersAt i
  if reg = .F then
    if dec then .DecAddrHL else .IncAddrHL
  else
    if dec then .DecRegister reg else .IncRegister reg

/-- `ArithmeticInstruction::fetch_inc_dec_long`. -/
def fetch_inc_dec_long (opcode : Nat) : ArithmeticInstruction :=
  let dec := opcode &&& 0b00001000 ≠ 0
  let i := (opcode &&& 0b00110000) >>> 4
  let reg := longRegistersAt i
  if dec then .DecLongRegister reg else .IncLongRegister reg

/-- `ArithmeticInstruction::fetch_add_hl_long`. -/
def fetch_add_hl_long (opcode : Nat) : ArithmeticInstruction :=
  let i := (opcode &&& 0b00110000) >>> 4
  .AddHL (longRegistersAt i)

/-- `ArithmeticInstruction::fetch` — the match arms in source order;
immediate operands are fetched with `cpu.advance()`. -/
def fetch (cpu : Cpu) (opcode : Nat) : Cpu × Option ArithmeticInstruction :=
  if 0x80 ≤ opcode ∧ opcode ≤ 0x8F then (cpu, some (fetch_add opcode))
  else if 0x90 ≤ opcode ∧ opcode ≤ 0x9F then (cpu, some (fetch_sub opcode))
  else if opcode = 0xC6 then let (c, n) := cpu.advance; (c, some (.AddImmediate n))
  else if opcode = 0xCE then let (c, n) := cpu.advance; (c, some (.AddCarryImmediate n))
  else if opcode = 0xD6 then let (c, n) := cpu.advance; (c, some (.SubImmediate n))
  else if opcode = 0xDE then let (c, n) := cpu.advance; (c, some (.SubCarryImmediate n))
  else if opcode = 0xE6 then let (c, n) := cpu.advance; (c, some (.AndImmediate n))
  else if opcode = 0xE8 then let (c, n) := cpu.advance; (c, some (.AddSPImmediate n))
  else if opcode = 0xEE then let (c, n) := cpu.advance; (c, some (.XorImmediate n))
  else if opcode = 0xF6 then let (c, n) := cpu.advance; (c, some (.OrImmediate n))
  else if opcode = 0xFE then let (c, n) := cpu.advance; (c, some (.CmpImmediate n))
  else if 0xA0 ≤ opcode ∧ opcode ≤ 0xBF then (cpu, some (fetch_bitwise opcode))
  else if opcode &&& 0b11000110 = 0x04 then (cpu, some (fetch_inc_dec opcode))
  else if opcode &&& 0b11000111 = 0x03 then (cpu, some (fetch_inc_dec_long opcode))
  else if opcode &&& 0b11001111 = 0x09 then (cpu, some (fetch_add_hl_long opcode))
  else (cpu, none)

/-- Body of the `AddImmediate` execute arm (the register and `(HL)`
variants re-execute it on the fetched operand). -/
def execAddImmediate (n : Nat) (cpu : Cpu) : Option Cpu := do
  let a := cpu.get_reg_a
  let (value, flags) ← add a n
  pure ((cpu.set_flags flags).put_reg_a value)

/-- Body of the `SubImmediate` execute arm — calls the `todo!()` helper `sub`. -/
def execSubImmediate (n : Nat) (cpu : Cpu) : Option Cpu := do
  let a := cpu.get_reg_a
  let (value, flags) ← sub a n
  pure ((cpu.set_flags flags).put_reg_a value)

/-- Body of the `AddCarryImmediate` execute arm. -/
def execAddCarryImmediate (n : Nat) (cpu : Cpu) : Option Cpu := do
  let a := cpu.get_reg_a
  let carry := cpu.get_flag .Carry
  let (value, flags) ← add_carry a n carry
  pure ((cpu.set_flags flags).put_reg_a value)

/-- Body of the `SubCarryImmediate` execute arm — calls the `todo!()`
helper `sub_carry`. -/
def execSubCarryImmediate (n : Nat) (cpu : Cpu) : Option Cpu := do
  let a := cpu.get_reg_a
  let carry := cpu.get_flag .Carry
  let (value, flags) ← sub_carry a n carry
  pure ((cpu.set_flags flags).put_reg_a value)

/-- Body of the `AndImmediate` execute arm. -/
def execAndImmediate (n : Nat) (cpu : Cpu) : Option Cpu := do
  let a := cpu.get_reg_a
  let result := a &&& n
  let flags : SetFlags := ⟨decide (result = 0), false, true, false⟩
  pure ((cpu.put_reg_a result).set_flags flags)

/-- Body of the `OrImmediate` execute arm. -/
def execOrImmediate (n : Nat) (cpu : Cpu) : Option Cpu := do
  let a := cpu.get_reg_a
  let result := a ||| n
  let flags : SetFlags := { SetFlags.mkDefault with zero := decide (result = 0) }
  pure ((cpu.put_reg_a result).set_flags flags)

/-- Body of the `XorImmediate` execute arm. -/
def execXorImmediate (n : Nat) (cpu : Cpu) : Option Cpu := do
  let a := cpu.get_reg_a
  let result := a ^^^ n
  let flags : SetFlags := { SetFlags.mkDefault with zero := decide (result = 0) }
  pure ((cpu.put_reg_a result).set_flags flags)

/-- Body of the `CmpImmediate` execute arm — the result of the `todo!()`
helper `sub` is discarded, but its flags are kept (so this aborts). -/
def execCmpImmediate (n : Nat) (cpu : Cpu) : Option Cpu := do
  let a := cpu.get_reg_a
  let (_, flags) ← sub a n
  pure (cpu.set_flags flags)

/-- `ArithmeticInstruction::execute`. The register / `(HL)` variants of the
8-bit operations fetch their operand and re-run the corresponding immediate
arm, exactly as the source recursion does. `IncLongRegister` and
`DecLongRegister` call `add_assign` / `sub_assign` on the temporary
returned *by value* from `get_long_reg`, so the register itself is never
updated; the temporary's unchecked arithmetic can still abort. -/
def execute (i : ArithmeticInstruction) (cpu : Cpu) : Option Cpu :=
  match i with
  | .AddImmediate n => execAddImmediate n cpu
  | .AddRegister reg => execAddImmediate (cpu.get_reg reg) cpu
  | .AddAddrHL => let (c, n) := cpu.get_at_hl; execAddImmediate n c
  | .SubImmediate n => execSubImmediate n cpu
  | .SubRegister reg => execSubImmediate (cpu.get_reg reg) cpu
  | .SubAddrHL => let (c, n) := cpu.get_at_hl; execSubImmediate n c
  | .AddCarryImmediate n => execAddCarryImmediate n cpu
  | .AddCarryRegister reg => execAddCarryImmediate (cpu.get_reg reg) cpu
  | .AddCarryAddrHL => let (c, n) := cpu.get_at_hl; execAddCarryImmediate n c
  | .SubCarryImmediate n => execSubCarryImmediate n cpu
  | .SubCarryRegister reg => execSubCarryImmediate (cpu.get_reg reg) cpu
  | .SubCarryAddrHL => let (c, n) := cpu.get_at_hl; execSubCarryImmediate n c
  | .AndImmediate n => execAndImmediate n cpu
  | .AndRegister reg => execAndImmediate (cpu.get_reg reg) cpu
  | .AndAddrHL => let (c, n) := cpu.get_at_hl; execAndImmediate n c
  | .OrImmediate n => execOrImmediate n cpu
  | .OrRegister reg => execOrImmediate (cpu.get_reg reg) cpu
  | .OrAddrHL => let (c, n) := cpu.get_at_hl; execOrImmediate n c
  | .XorImmediate n => execXorImmediate n cpu
  | .XorRegister reg => execXorImmediate (cpu.get_reg reg) cpu
  | .XorAddrHL => let (c, n) := cpu.get_at_hl; execXorImmediate n c
  | .CmpImmediate n => execCmpImmediate n cpu
  | .CmpRegister reg => execCmpImmediate (cpu.get_reg reg) cpu
  | .CmpAddrHL => let (c, n) := cpu.get_at_hl; execCmpImmediate n c
  | .IncRegister reg => do
    let value := cpu.get_reg reg
    let carry := cpu.get_flag .Carry
    let (value, flags) ← inc value carry
    pure ((cpu.set_flags flags).put_reg reg value)
  | .IncAddrHL => do
    let (c, value) := cpu.get_at_hl
    let carry := c.get_flag .Carry
    let (value, flags) ← inc value carry
    pure ((c.set_flags flags).put_at_hl value)
  | .DecRegister reg => do
    let value := cpu.get_reg reg
    let carry := cpu.get_flag .Carry
    let (value, flags) ← dec value carry
    pure ((cpu.set_flags flags).put_reg reg value)
  | .DecAddrHL => do
    let (c, value) := cpu.get_at_hl
    let carry := c.get_flag .Carry
    let (value, flags) ← dec value carry
    pure ((c.set_flags flags).put_at_hl value)
  | .AddHL _ => none -- the source arm is `todo!()`
  | .AddSPImmediate _ => none -- the source arm is `todo!()`
  | .IncLongRegister reg => do
    let _ ← rustAddU16 (cpu.get_long_reg reg) 1
    pure cpu
  | .DecLongRegister reg => do
    let _ ← rustSubU16 (cpu.get_long_reg reg) 1
    pure cpu

end ArithmeticInstruction

/-! ## Bit instructions (src/instructions/bit.rs) -/

/-- `enum TargetBit`. -/
inductive TargetBit where
  | First | Second | Third | Fourth | Fifth | Sixth | Seventh | Eighth
deriving DecidableEq, Repr

/-- `From<u8> for TargetBit` — `bit % 8` selects the variant. -/
def TargetBit.ofByte (bit : Nat) : TargetBit :=
  match bit % 8 with
  | 0 => .First
  | 1 => .Second
  | 2 => .Third
  | 3 => .Fourth
  | 4 => .Fifth
  | 5 => .Sixth
  | 6 => .Seventh
  | _ => .Eighth

/-- `TargetBit::get_mask`. -/
def TargetBit.get_mask : TargetBit → Nat
  | .First => 1 <<< 0
  | .Second => 1 <<< 1
  | .Third => 1 <<< 2
  | .Fourth => 1 <<< 3
  | .Fifth => 1 <<< 4
  | .Sixth => 1 <<< 5
  | .Seventh => 1 <<< 6
  | .Eighth => 1 <<< 7

/-- `enum BitInstruction`. -/
inductive BitInstruction where
  | BitRegister (reg : Register) (bit : TargetBit)
  | BitAddrHL (bit : TargetBit)
  | SetRegister (reg : Register) (bit : TargetBit)
  | SetAddrHL (bit : TargetBit)
  | ResRegister (reg : Register) (bit : TargetBit)
  | ResAddrHL (bit : TargetBit)
deriving DecidableEq, Repr

namespace BitInstruction

/-- `BitInstruction::fetch_prefixed` (decode from the 0xCB page). -/
def fetchCb (opcode_id : Nat) (reg : FetchRegister) : Option BitInstruction :=
  let bit := TargetBit.ofByte (opcode_id >>> 3)
  match opcode_id &&& 0b11000111 with
  | 0x40 =>
    some (match reg with
      | .Register r => .BitRegister r bit
      | .AddrHL => .BitAddrHL bit)
  | 0x80 =>
    some (match reg with
      | .Register r => .ResRegister r bit
      | .AddrHL => .ResAddrHL bit)
  | 0xC0 =>
    some (match reg with
      | .Register r => .SetRegister r bit
      | .AddrHL => .SetAddrHL bit)
  | _ => none

/-- `BitInstruction::test_bit`. -/
def test_bit (byte : Nat) (target_bit : TargetBit) (carry : Bool) : SetFlags :=
  let mask := target_bit.get_mask
  let zero := decide (byte &&& mask = 0)
  ⟨zero, false, true, carry⟩

/-- `BitInstruction::execute` — starts with one explicit `cycle()`, then
dispatches; the `(HL)` variants read (and for SET/RES write back) memory. -/
def execute (i : BitInstruction) (cpu : Cpu) : Cpu :=
  let c := cpu.cycle
  match i with
  | .BitRegister reg bit =>
    let value := c.get_reg reg
    let carry := c.get_flag .Carry
    c.set_flags (test_bit value bit carry)
  | .BitAddrHL bit =>
    let (c1, value) := c.get_at_hl
    let carry := c1.get_flag .Carry
    c1.set_flags (test_bit value bit carry)
  | .SetRegister reg bit =>
    c.put_reg reg (c.get_reg reg ||| bit.get_mask)
  | .SetAddrHL bit =>
    let (c1, value) := c.get_at_hl
    c1.put_at_hl (value ||| bit.get_mask)
  | .ResRegister reg bit =>
    c.put_reg reg (c.get_reg reg &&& (bit.get_mask ^^^ 0xFF))
  | .ResAddrHL bit =>
    let (c1, value) := c.get_at_hl
    c1.put_at_hl (value &&& (bit.get_mask ^^^ 0xFF))

end BitInstruction

/-! ## Rotate / shift instructions (src/instructions/rotate_shift.rs) -/

/-- `enum RotateShiftInstruction`. -/
inductive RotateShiftInstruction where
  | RotateLeftCarryA
  | RotateLeftA
  | RotateRightCarryA
  | RotateRightA
  | RotateLeftCarryRegister (reg : Register)
  | RotateLeftCarryAddrHL
  | RotateLeftRegister (reg : Register)
  | RotateLeftAddrHL
  | RotateRightCarryRegister (reg : Register)
  | RotateRightCarryAddrHL
  | RotateRightRegister (reg : Register)
  | RotateRightAddrHL
  | ShiftLeftRegister (reg : Register)
  | ShiftLeftAddrHL
  | ShiftRightRegisterSigned (reg : Register)
  | ShiftRightAddrHLSigned
  | ShiftRightRegister (reg : Register)
  | ShiftRightAddrHL
deriving DecidableEq, Repr

namespace RotateShiftInstruction

/-- `RotateShiftInstruction::fetch_prefixed` (decode from the 0xCB page). -/
def fetchCb (opcode_id : Nat) (reg : FetchRegister) : Option RotateShiftInstruction :=
  match opcode_id with
  | 0x00 =>
    some (match reg with
      | .Register r => .RotateLeftCarryRegister r
      | .AddrHL => .RotateLeftCarryAddrHL)
  | 0x10 =>
    some (match reg with
      | .Register r => .RotateLeftRegister r
      | .AddrHL => .RotateLeftAddrHL)
  | 0x08 =>
    some (match reg with
      | .Register r => .RotateRightCarryRegister r
      | .AddrHL => .RotateRightCarryAddrHL)
  | 0x18 =>
    some (match reg with
      | .Register r => .RotateRightRegister r
      | .AddrHL => .RotateRightAddrHL)
  | 0x20 =>
    some (match reg with
      | .Register r => .ShiftLeftRegister r
      | .AddrHL => .ShiftLeftAddrHL)
  | 0x28 =>
    some (match reg with
      | .Register r => .ShiftRightRegisterSigned r
      | .AddrHL => .ShiftRightAddrHLSigned)
  | 0x38 =>
    some (match reg with
      | .Register r => .ShiftRightRegister r
      | .AddrHL => .ShiftRightAddrHL)
  | _ => none

/-- `RotateShiftInstruction::fetch` (the four unprefixed rotate-A opcodes). -/
def fetch (opcode : Nat) : Option RotateShiftInstruction :=
  match opcode with
  | 0x07 => some .RotateLeftCarryA
  | 0x17 => some .RotateLeftA
  | 0x0F => some .RotateRightCarryA
  | 0x1F => some .RotateRightA
  | _ => none

/-- `RotateShiftInstruction::rotate_carry` — `u8::rotate_left` /
`u8::rotate_right` by one, with the rotated-out bit copied to carry. -/
def rotate_carry (n : Nat) (left : Bool) : Nat × SetFlags :=
  let (value, carry) :=
    if left then
      (n % 256 * 2 / 256 + n % 256 * 2 % 256, decide (n &&& 0b10000000 ≠ 0))
    else
      (n % 2 * 128 + n % 256 / 2, decide (n &&& 0b00000001 ≠ 0))
  let zero := decide (value = 0)
  (value, { SetFlags.mkDefault with zero := zero, carry := carry })

/-- `RotateShiftInstruction::rotate` — 9-bit rotation through the carry
flag; `n << 1` truncates to a byte, `n >> 1` is the logical shift. -/
def rotate (n : Nat) (old_carry left : Bool) : Nat × SetFlags :=
  let (carry_bit, carry) :=
    match old_carry, left with
    | true, true => (0b00000001, decide (n &&& 0b10000000 ≠ 0))
    | true, false => (0b10000000, decide (n &&& 0b00000001 ≠ 0))
    | false, true => (0, decide (n &&& 0b10000000 ≠ 0))
    | false, false => (0, decide (n &&& 0b00000001 ≠ 0))
  let shifted := if left then n * 2 % 256 else n / 2
  let value := shifted ||| carry_bit
  let zero := decide (value = 0)
  (value, { SetFlags.mkDefault with zero := zero, carry := carry })

/-- `RotateShiftInstruction::shift` — left shift truncates to a byte; the
signed right shift reinterprets the byte as `i8` and shifts arithmetically. -/
def shift (n : Nat) (signed left : Bool) : Nat × SetFlags :=
  let carry :=
    if left then decide (n &&& 0b10000000 ≠ 0) else decide (n &&& 0b00000001 ≠ 0)
  let value :=
    if left then n * 2 % 256
    else if signed then byteOfI8 (i8OfByte n / 2)
    else n / 2
  let zero := decide (value = 0)
  (value, { SetFlags.mkDefault with zero := zero, carry := carry })

/-- Shared execute step: apply an operation producing a value and flags to
the A register. -/
def applyA (f : Nat → Nat × SetFlags) (cpu : Cpu) : Cpu :=
  let value := cpu.get_reg_a
  let (value, flags) := f value
  (cpu.put_reg_a value).set_flags flags

/-- Shared execute step: apply an operation to a named register. -/
def applyReg (f : Nat → Nat × SetFlags) (reg : Register) (cpu : Cpu) : Cpu :=
  let value := cpu.get_reg reg
  let (value, flags) := f value
  (cpu.put_reg reg value).set_flags flags

/-- Shared execute step: apply an operation to the byte at `(HL)`. -/
def applyHL (f : Nat → Nat × SetFlags) (cpu : Cpu) : Cpu :=
  let (c, value) := cpu.get_at_hl
  let (value, flags) := f value
  (c.put_at_hl value).set_flags flags

/-- `RotateShiftInstruction::execute`. -/
def execute (i : RotateShiftInstruction) (cpu : Cpu) : Cpu :=
  match i with
  | .RotateLeftCarryA => applyA (fun n => rotate_carry n true) cpu
  | .RotateLeftA => applyA (fun n => rotate n (cpu.get_flag .Carry) true) cpu
  | .RotateRightCarryA => applyA (fun n => rotate_carry n false) cpu
  | .RotateRightA => applyA (fun n => rotate n (cpu.get_flag .Carry) false) cpu
  | .RotateLeftCarryRegister reg => applyReg (fun n => rotate_carry n true) reg cpu
  | .RotateLeftCarryAddrHL => applyHL (fun n => rotate_carry n true) cpu
  | .RotateLeftRegister reg => applyReg (fun n => rotate n (cpu.get_flag .Carry) true) reg cpu
  | .RotateLeftAddrHL => applyHL (fun n => rotate n (cpu.get_flag .Carry) true) cpu
  | .RotateRightCarryRegister reg => applyReg (fun n => rotate_carry n false) reg cpu
  | .RotateRightCarryAddrHL => applyHL (fun n => rotate_carry n false) cpu
  | .RotateRightRegister reg => applyReg (fun n => rotate n (cpu.get_flag .Carry) false) reg cpu
  | .RotateRightAddrHL => applyHL (fun n => rotate n (cpu.get_flag .Carry) false) cpu
  | .ShiftLeftRegister reg => applyReg (fun n => shift n false true) reg cpu
  | .ShiftLeftAddrHL => applyHL (fun n => shift n false true) cpu
  | .ShiftRightRegisterSigned reg => applyReg (fun n => shift n true false) reg cpu
  | .ShiftRightAddrHLSigned => applyHL (fun n => shift n true false) cpu
  | .ShiftRightRegister reg => applyReg (fun n => shift n false false) reg cpu
  | .ShiftRightAddrHL => applyHL (fun n => shift n false false) cpu

end RotateShiftInstruction

/-! ## Miscellaneous instructions (src/instructions/miscellaneous.rs) -/

/-- `enum MiscInstruction`. -/
inductive MiscInstruction where
  | SwapRegister (reg : Register)
  | SwapAddrHL
  | DecimalAdjustA
  | ComplementA
  | ComplementCarry
  | SetCarry
  | Nop
  | Halt
  | Stop
  | DisableInterrupt
  | EnableInterrupt
deriving DecidableEq, Repr

namespace MiscInstruction

/-- `MiscInstruction::fetch_prefixed` (decode from the 0xCB page): only the
SWAP block, `opcode_id == 0x30`. -/
def fetchCb (opcode_id : Nat) (reg : FetchRegister) : Option MiscInstruction :=
  if opcode_id = 0x30 then
    some (match reg with
      | .Register r => .SwapRegister r
      | .AddrHL => .SwapAddrHL)
  else none

/-- `MiscInstruction::fetch`. The `0x10` arm's guard calls `cpu.advance()`
before testing, so a failed guard still advances the CPU and falls to the
final `None` arm. -/
def fetch (cpu : Cpu) (opcode : Nat) : Cpu × Option MiscInstruction :=
  match opcode with
  | 0x27 => (cpu, some .DecimalAdjustA)
  | 0x2F => (cpu, some .ComplementA)
  | 0x3F => (cpu, some .ComplementCarry)
  | 0x37 => (cpu, some .SetCarry)
  | 0x00 => (cpu, some .Nop)
  | 0x76 => (cpu, some .Halt)
  | 0x10 =>
    let (c, byte) := cpu.advance
    if byte = 0x00 then (c, some .Stop) else (c, none)
  | 0xF3 => (cpu, some .DisableInterrupt)
  | 0xFB => (cpu, some .EnableInterrupt)
  | _ => (cpu, none)

/-- `MiscInstruction::swap` — swap the nibbles of a byte. -/
def swap (value : Nat) : Nat :=
  let lower := value &&& 0x0F
  let upper := value &&& 0xF0
  (lower <<< 4) % 256 ||| upper >>> 4

/-- `MiscInstruction::execute`. `DecimalAdjustA`, `Halt` and `Stop` are
`todo!()` in the source; `DisableInterrupt` / `EnableInterrupt` call the
`todo!()` `Cpu` interrupt toggles. -/
def execute (i : MiscInstruction) (cpu : Cpu) : Option Cpu :=
  match i with
  | .SwapRegister reg =>
    let c := cpu.cycle
    some (c.put_reg reg (swap (c.get_reg reg)))
  | .SwapAddrHL =>
    let c := cpu.cycle
    let (c1, value) := c.get_at_hl
    some (c1.put_at_hl (swap value))
  | .DecimalAdjustA => none
  | .ComplementA =>
    some (cpu.put_reg_a (cpu.get_reg_a ^^^ 0xFF))
  | .ComplementCarry =>
    some (cpu.set_flag_to .Carry (!cpu.get_flag .Carry))
  | .SetCarry =>
    some (cpu.set_flag .Carry)
  | .Nop => some cpu
  | .Halt => none
  | .Stop => none
  | .DisableInterrupt => cpu.disable_interrupts
  | .EnableInterrupt => cpu.enable_interrupts

end MiscInstruction

/-! ## Load instructions (src/instructions/load.rs) -/

/-- `enum LoadInstruction`. -/
inductive LoadInstruction where
  | LoadImmediate (reg : Register) (n : Nat)
  | LoadRegister (r1 r2 : Register)
  | LoadFromHLAddr (reg : Register)
  | LoadIntoHLAddr (reg : Register)
  | LoadIntoHLAddrn (n : Nat)
  | LoadIntoAFromAddr (lr : LongRegister)
  | LoadIntoAFromAddrnn (nn : Nat)
  | LoadIntoAddrFromA (lr : LongRegister)
  | LoadIntoAddrnnFromA (nn : Nat)
  | LoadFromAddrCIntoA
  | LoadIntoAddrCFromA
  | LoadFromAddrHLIntoADec
  | LoadFromAIntoAddrHLDec
  | LoadFromAddrHLIntoAInc
  | LoadFromAIntoAddrHLInc
  | LoadFromAIntoAddrn (n : Nat)
  | LoadFromAddrnIntoA (n : Nat)
  | LoadImmediateLong (lr : LongRegister) (nn : Nat)
  | LoadFromHLIntoSP
  | LoadFromSPPlusnIntoHL (delta : Int)
  | LoadSPIntoAddrnn (nn : Nat)
  | Push (lr : LongRegister)
  | Pop (lr : LongRegister)
deriving DecidableEq, Repr

namespace LoadInstruction

/-- `LoadInstruction::fetch_load_r1_r2` — in the `0x40..=0x7F` block the
`F` slot means `(HL)`; the `(F, F)` case (0x76) is HALT and decodes to none. -/
def fetch_load_r1_r2 (opcode : Nat) : Option LoadInstruction :=
  let r2 := registersAt (opcode % 8)
  let r1 := registersAt (opcode >>> 3 % 8)
  if r1 = .F ∧ r2 = .F then none
  else if r1 = .F then some (.LoadIntoHLAddr r2)
  else if r2 = .F then some (.LoadFromHLAddr r1)
  else some (.LoadRegister r1 r2)

/-- `LoadInstruction::fetch_load_immediate`. -/
def fetch_load_immediate (opcode n : Nat) : LoadInstruction :=
  let r := registersAt (opcode >>> 3)
  if r = .F then .LoadIntoHLAddrn n else .LoadImmediate r n

/-- `LoadInstruction::fetch_long_register` — index bits 5..4; the `SP`
slot is replaced by `AF` (the source applies this replacement on every
caller, including `LD rr,nn`). -/
def fetch_long_register (opcode : Nat) : LongRegister :=
  let i := (opcode >>> 4) &&& 0b00000011
  let lr := longRegistersAt i
  if lr = .SP then .AF else lr

/-- `LoadInstruction::add_delta_to_addr` — the signed offset is split into
sign and magnitude (`i8::abs` aborts on `-128`), applied with unchecked
`u16` arithmetic, and H/C are recovered from an xor of the operands. -/
def add_delta_to_addr (addr : Nat) (delta : Int) : Option (Nat × SetFlags) := do
  let neg := decide (delta < 0)
  let delta_byte := byteOfI8 delta
  let babs ← rustAbsI8 delta
  let d := byteOfI8 babs
  let result ← if neg then rustSubU16 addr d else rustAddU16 addr d
  let carry := decide ((addr ^^^ delta_byte ^^^ result) &&& 0x0100 = 0x0100)
  let half_carry := decide ((addr ^^^ delta_byte ^^^ result) &&& 0x0010 = 0x0010)
  pure (result, { SetFlags.mkDefault with carry := carry, half_carry := half_carry })

/-- `LoadInstruction::fetch` — the match arms in source order; immediate
operands are fetched with `cpu.advance()` / `cpu.advance_long()`. -/
def fetch (cpu : Cpu) (opcode : Nat) : Cpu × Option LoadInstruction :=
  if opcode = 0x08 then
    let (c, nn) := cpu.advance_long; (c, some (.LoadSPIntoAddrnn nn))
  else if opcode = 0x22 then (cpu, some .LoadFromAIntoAddrHLInc)
  else if opcode = 0x2A then (cpu, some .LoadFromAddrHLIntoAInc)
  else if opcode = 0x32 then (cpu, some .LoadFromAIntoAddrHLDec)
  else if opcode = 0x3A then (cpu, some .LoadFromAddrHLIntoADec)
  else if 0x40 ≤ opcode ∧ opcode ≤ 0x7F then (cpu, fetch_load_r1_r2 opcode)
  else if opcode = 0xE0 then
    let (c, n) := cpu.advance; (c, some (.LoadFromAIntoAddrn n))
  else if opcode = 0xE2 then (cpu, some .LoadIntoAddrCFromA)
  else if opcode = 0xEA then
    let (c, nn) := cpu.advance_long; (c, some (.LoadIntoAddrnnFromA nn))
  else if opcode = 0xF0 then
    let (c, n) := cpu.advance; (c, some (.LoadFromAddrnIntoA n))
  else if opcode = 0xF2 then (cpu, some .LoadFromAddrCIntoA)
  else if opcode = 0xF9 then (cpu, some .LoadFromHLIntoSP)
  else if opcode = 0xF8 then
    let (c, byte) := cpu.advance; (c, some (.LoadFromSPPlusnIntoHL (i8OfByte byte)))
  else if opcode = 0xFA then
    let (c, nn) := cpu.advance_long; (c, some (.LoadIntoAFromAddrnn nn))
  else if opcode &&& 0b11001111 = 0x0A then
    (cpu, some (.LoadIntoAFromAddr (fetch_long_register opcode)))
  else if opcode &&& 0b11001111 = 0x02 then
    (cpu, some (.LoadIntoAddrFromA (fetch_long_register opcode)))
  else if opcode &&& 0b11000111 = 0x06 then
    let (c, n) := cpu.advance; (c, some (fetch_load_immediate opcode n))
  else if opcode &&& 0b11001111 = 0x01 then
    let (c, nn) := cpu.advance_long
    (c, some (.LoadImmediateLong (fetch_long_register opcode) nn))
  else if opcode &&& 0b11001111 = 0xC5 then (cpu, some (.Push (fetch_long_register opcode)))
  else if opcode &&& 0b11001111 = 0xC1 then (cpu, some (.Pop (fetch_long_register opcode)))
  else (cpu, none)

/-- `LoadInstruction::execute`. -/
def execute (i : LoadInstruction) (cpu : Cpu) : Option Cpu :=
  match i with
  | .LoadImmediate reg n => some (cpu.put_reg reg n)
  | .LoadRegister r1 r2 => some (cpu.put_reg r1 (cpu.get_reg r2))
  | .LoadFromHLAddr reg =>
    let (c, value) := cpu.get_at_hl
    some (c.put_reg reg value)
  | .LoadIntoHLAddr reg => some (cpu.put_at_hl (cpu.get_reg reg))
  | .LoadIntoHLAddrn n => some (cpu.put_at_hl n)
  | .LoadIntoAFromAddr lr =>
    let addr := cpu.get_long_reg lr
    let (c, value) := cpu.get_memory addr
    some (c.put_reg .A value)
  | .LoadIntoAFromAddrnn addr =>
    let (c, value) := cpu.get_memory addr
    some (c.put_reg .A value)
  | .LoadIntoAddrFromA lr =>
    let addr := cpu.get_long_reg lr
    some (cpu.put_memory addr cpu.get_reg_a)
  | .LoadIntoAddrnnFromA addr => some (cpu.put_memory addr cpu.get_reg_a)
  | .LoadFromAddrCIntoA =>
    let addr := u16FromBeBytes 0xFF (cpu.get_reg .C)
    let (c, value) := cpu.get_memory addr
    some (c.put_reg_a value)
  | .LoadIntoAddrCFromA =>
    let addr := u16FromBeBytes 0xFF (cpu.get_reg .C)
    some (cpu.put_memory addr cpu.get_reg_a)
  | .LoadFromAddrHLIntoADec => do
    let addr := cpu.get_long_reg .HL
    let (c, value) := cpu.get_memory addr
    let a2 ← rustSubU16 addr 1
    pure ((c.put_reg_a value).put_long_reg .HL a2)
  | .LoadFromAIntoAddrHLDec => do
    let addr := cpu.get_long_reg .HL
    let c := cpu.put_memory addr cpu.get_reg_a
    let a2 ← rustSubU16 addr 1
    pure (c.put_long_reg .HL a2)
  | .LoadFromAddrHLIntoAInc => do
    let addr := cpu.get_long_reg .HL
    let (c, value) := cpu.get_memory addr
    let a2 ← rustAddU16 addr 1
    pure ((c.put_reg_a value).put_long_reg .HL a2)
  | .LoadFromAIntoAddrHLInc => do
    let addr := cpu.get_long_reg .HL
    let c := cpu.put_memory addr cpu.get_reg_a
    let a2 ← rustAddU16 addr 1
    pure (c.put_long_reg .HL a2)
  | .LoadFromAIntoAddrn n =>
    let addr := u16FromBeBytes 0xFF n
    some (cpu.put_memory addr cpu.get_reg_a)
  | .LoadFromAddrnIntoA n =>
    let addr := u16FromBeBytes 0xFF n
    let (c, value) := cpu.get_memory addr
    some (c.put_reg_a value)
  | .LoadImmediateLong reg value => some (cpu.put_long_reg reg value)
  | .LoadFromHLIntoSP =>
    let c := cpu.cycle
    some (c.put_long_reg .SP (c.get_long_reg .HL))
  | .LoadFromSPPlusnIntoHL delta => do
    let sp := cpu.get_long_reg .SP
    let (value, flags) ← add_delta_to_addr sp delta
    pure ((cpu.set_flags flags).put_long_reg .HL value)
  | .LoadSPIntoAddrnn addr => cpu.put_long_at addr (cpu.get_long_reg .SP)
  | .Push long_reg => do
    let c := cpu.cycle
    c.push_stack (c.get_long_reg long_reg)
  | .Pop long_reg => do
    let (c, value) ← cpu.pop_stack
    pure (c.put_long_reg long_reg value)

end LoadInstruction

/-! ## Control-flow instructions (src/instructions/control_flow.rs) -/

/-- `enum ControlFlowCondition`. -/
inductive ControlFlowCondition where
  | NotZero | Zero | NoCarry | Carry
deriving DecidableEq, Repr

/-- `From<u8> for ControlFlowCondition`. -/
def ControlFlowCondition.ofByte (cc : Nat) : ControlFlowCondition :=
  match cc with
  | 0 => .NotZero
  | 1 => .Zero
  | 2 => .NoCarry
  | _ => .Carry

/-- `ControlFlowCondition::check_condition`. -/
def ControlFlowCondition.check_condition (c : ControlFlowCondition) (flags : SetFlags) : Bool :=
  match c with
  | .NotZero => !flags.zero
  | .Zero => flags.zero
  | .NoCarry => !flags.carry
  | .Carry => flags.carry

/-- `enum ControlFlowInstruction`. -/
inductive ControlFlowInstruction where
  | JumpImmediate (addr : Nat)
  | JumpImmediateCondition (cc : ControlFlowCondition) (addr : Nat)
  | JumpAddrHL
  | JumpImmediateRelative (delta : Int)
  | JumpRelativeCondition (cc : ControlFlowCondition) (delta : Int)
  | CallImmediate (addr : Nat)
  | CallImmediateCondition (cc : ControlFlowCondition) (addr : Nat)
  | Reset (addr : Nat)
  | Return
  | ReturnCondition (cc : ControlFlowCondition)
  | ReturnEnableInterrupt
deriving DecidableEq, Repr

namespace ControlFlowInstruction

/-- `ControlFlowInstruction::fetch` — the match arms in source order. -/
def fetch (cpu : Cpu) (opcode : Nat) : Cpu × Option ControlFlowInstruction :=
  let cc := ControlFlowCondition.ofByte ((opcode &&& 0b00011000) >>> 3)
  if opcode = 0xC3 then
    let (c, nn) := cpu.advance_long; (c, some (.JumpImmediate nn))
  else if opcode &&& 0b11100111 = 0xC2 then
    let (c, nn) := cpu.advance_long; (c, some (.JumpImmediateCondition cc nn))
  else if opcode = 0xE9 then (cpu, some .JumpAddrHL)
  else if opcode = 0x18 then
    let (c, byte) := cpu.advance; (c, some (.JumpImmediateRelative (i8OfByte byte)))
  else if opcode &&& 0b11100111 = 0x20 then
    let (c, byte) := cpu.advance; (c, some (.JumpRelativeCondition cc (i8OfByte byte)))
  else if opcode = 0xCD then
    let (c, nn) := cpu.advance_long; (c, some (.CallImmediate nn))
  else if opcode &&& 0b11100111 = 0xC4 then
    let (c, nn) := cpu.advance_long; (c, some (.CallImmediateCondition cc nn))
  else if opcode &&& 0b11000111 = 0b11000111 then (cpu, some (.Reset (opcode &&& 0b00111000)))
  else if opcode = 0xC9 then (cpu, some .Return)
  else if opcode &&& 0b11100111 = 0xC0 then (cpu, some (.ReturnCondition cc))
  else if opcode = 0xD9 then (cpu, some .ReturnEnableInterrupt)
  else (cpu, none)

/-- Body of the `JumpImmediate` execute arm: set PC, one extra cycle. -/
def execJumpImmediate (addr : Nat) (cpu : Cpu) : Cpu :=
  (cpu.set_pc addr).cycle

/-- Body of the `JumpImmediateRelative` execute arm. -/
def execJumpImmediateRelative (delta : Int) (cpu : Cpu) : Cpu :=
  (cpu.move_by delta).cycle

/-- Body of the `CallImmediate` execute arm: one extra cycle, push the
current PC, jump. -/
def execCallImmediate (addr : Nat) (cpu : Cpu) : Option Cpu := do
  let c := cpu.cycle
  let pc := c.get_pc
  let c1 ← c.push_stack pc
  pure (c1.set_pc addr)

/-- Body of the `Return` execute arm: pop, then run the `JumpImmediate` arm. -/
def execReturn (cpu : Cpu) : Option Cpu := do
  let (c, addr) ← cpu.pop_stack
  pure (execJumpImmediate addr c)

/-- `ControlFlowInstruction::exec_cc` — evaluate the condition against the
current flags; on success run the body and report `true`. -/
def exec_cc (cc : ControlFlowCondition) (body : Cpu → Option Cpu) (cpu : Cpu) :
    Option (Cpu × Bool) :=
  let flags := cpu.get_flags
  let jump := cc.check_condition flags
  if jump then (body cpu).map (fun c => (c, true)) else some (cpu, false)

/-- `ControlFlowInstruction::execute`. The source's self-recursive calls
(`exec_cc` re-executing a base variant, `Reset` delegating to
`CallImmediate`, `Return` delegating to `JumpImmediate`) are expressed
through the shared `exec*` arm bodies above. `ReturnEnableInterrupt` ends
in the `todo!()` `enable_interrupts`. -/
def execute (i : ControlFlowInstruction) (cpu : Cpu) : Option Cpu :=
  match i with
  | .JumpImmediate addr => some (execJumpImmediate addr cpu)
  | .JumpImmediateCondition cc addr =>
    (exec_cc cc (fun c => some (execJumpImmediate addr c)) cpu).map Prod.fst
  | .JumpAddrHL => some (cpu.set_pc (cpu.get_long_reg .HL))
  | .JumpImmediateRelative delta => some (execJumpImmediateRelative delta cpu)
  | .JumpRelativeCondition cc delta =>
    (exec_cc cc (fun c => some (execJumpImmediateRelative delta c)) cpu).map Prod.fst
  | .CallImmediate addr => execCallImmediate addr cpu
  | .CallImmediateCondition cc addr =>
    (exec_cc cc (execCallImmediate addr) cpu).map Prod.fst
  | .Reset addr => execCallImmediate addr cpu
  | .Return => execReturn cpu
  | .ReturnCondition cc => do
    let (c, jumped) ← exec_cc cc execReturn cpu
    if jumped then pure c else pure c.cycle
  | .ReturnEnableInterrupt => do
    let c ← execReturn cpu
    c.enable_interrupts

end ControlFlowInstruction

/-! ## Top-level instruction type (src/instructions/mod.rs) -/

/-- `enum Instruction`. -/
inductive Instruction where
  | Load (i : LoadInstruction)
  | Arithmetic (i : ArithmeticInstruction)
  | Misc (i : MiscInstruction)
  | RotateShift (i : RotateShiftInstruction)
  | Bit (i : BitInstruction)
  | ControlFlow (i : ControlFlowInstruction)
deriving DecidableEq, Repr

namespace Instruction

/-- `Instruction::fetch`. The opcode is read at PC (one cycle, PC not
advanced); the 0xCB page reads the second opcode byte with
`get_relative(1)` (one cycle, unchecked `pc + 1`). On the base page the
family decoders run in source order, each threading the CPU state (an
operand-fetching arm advances PC; a `None` result leaves the state for the
next decoder, as the `or_else` chain does). -/
def fetch (cpu : Cpu) : Option (Cpu × Option Instruction) := do
  let (c0, opcode) := cpu.current_byte
  if opcode = 0xCB then do
    let (c1, op2) ← c0.get_relative 1
    let reg := FetchRegister.ofByte (op2 &&& 0b00000111)
    let opcode_id := op2 &&& 0b11111000
    match MiscInstruction.fetchCb opcode_id reg with
    | some m => pure (c1, some (.Misc m))
    | none =>
      match RotateShiftInstruction.fetchCb opcode_id reg with
      | some r => pure (c1, some (.RotateShift r))
      | none => pure (c1, (BitInstruction.fetchCb opcode_id reg).map .Bit)
  else
    let (c1, oLoad) := LoadInstruction.fetch c0 opcode
    match oLoad with
    | some l => pure (c1, some (.Load l))
    | none =>
      let (c2, oArith) := ArithmeticInstruction.fetch c1 opcode
      match oArith with
      | some a => pure (c2, some (.Arithmetic a))
      | none =>
        let (c3, oMisc) := MiscInstruction.fetch c2 opcode
        match oMisc with
        | some m => pure (c3, some (.Misc m))
        | none =>
          match RotateShiftInstruction.fetch opcode with
          | some r => pure (c3, some (.RotateShift r))
          | none =>
            let (c4, oCf) := ControlFlowInstruction.fetch c3 opcode
            pure (c4, oCf.map .ControlFlow)

/-- `Instruction::execute` — dispatch to the family executors. -/
def execute (i : Instruction) (cpu : Cpu) : Option Cpu :=
  match i with
  | .Load i => i.execute cpu
  | .Arithmetic i => i.execute cpu
  | .Misc i => i.execute cpu
  | .RotateShift i => some (i.execute cpu)
  | .Bit i => some (i.execute cpu)
  | .ControlFlow i => i.execute cpu

end Instruction

/-- Fetch the instruction at PC and execute it (`Instruction::fetch`
followed by `Instruction::execute`; an unknown opcode yields no state). -/
def fetchAndExecute (cpu : Cpu) : Option Cpu := do
  let (c, oi) ← Instruction.fetch cpu
  let i ← oi
  i.execute c

/-! ## Concrete machine states used by the individual verification results -/

/-- A CPU whose memory holds the bytes `0x34, 0x12` at addresses 0 and 1
(PC = 0): a little-endian operand image for the value 0x1234. -/
def cpuLE : Cpu :=
  { Cpu.mkDefault with memory := (Memory.default.put 0 0x34).put 1 0x12 }

/-- A CPU about to run `JP nn` with operand bytes `lo = 0x34`, `hi = 0x12`
after the opcode: memory `0xC3, 0x34, 0x12` from address 0. -/
def cpuJP : Cpu :=
  { Cpu.mkDefault with memory := ((Memory.default.put 0 0xC3).put 1 0x34).put 2 0x12 }

/-- A CPU about to run `POP AF` (opcode 0xF1) with SP = 0xC000 and the
byte 0xFF stored at the top of the stack. -/
def cpuPopAF : Cpu :=
  { Cpu.mkDefault with
      registers := { Registers.mkDefault with sp := 0xC000 },
      memory := (Memory.default.put 0 0xF1).put 0xC000 0xFF }

/-- A CPU about to run opcode `0x31 nn` (decoded by the source as a 16-bit
immediate load into AF) with immediate bytes `0x31, 0xFF` in memory. -/
def cpuLdAF : Cpu :=
  { Cpu.mkDefault with memory := (Memory.default.put 0 0x31).put 1 0xFF }

/-- A CPU about to run `BIT 0,(HL)` (bytes `0xCB 0x46`). -/
def cpuBIT : Cpu :=
  { Cpu.mkDefault with memory := (Memory.default.put 0 0xCB).put 1 0x46 }

/-- A CPU about to run `SET 0,(HL)` (bytes `0xCB 0xC6`). -/
def cpuSET : Cpu :=
  { Cpu.mkDefault with memory := (Memory.default.put 0 0xCB).put 1 0xC6 }

/-- A CPU about to run `RES 0,(HL)` (bytes `0xCB 0x86`). -/
def cpuRES : Cpu :=
  { Cpu.mkDefault with memory := (Memory.default.put 0 0xCB).put 1 0x86 }

/-- A CPU with SP = 0xFFFE (two bytes below the top of the address space). -/
def cpuSpTop : Cpu :=
  { Cpu.mkDefault with registers := { Registers.mkDefault with sp := 0xFFFE } }

/-! ## Range lemmas for the address decoder -/

/-- Work-RAM addresses below the echo cut-off decode to the echo section
(the source routes `0xC000 + o` with `o < 0x1E00` to `InternalRamEcho`). -/
theorem from_addr_work (a : Nat) (h1 : 0xC000 ≤ a) (h2 : a < 0xDE00) :
    Bank.from_addr a = some (.InternalRamEcho, a - 0xC000) := by
  unfold Bank.from_addr
  rw [if_neg (by unfold ROM_BANK_START SWITCHABLE_ROM_BANK_START; omega)]
  rw [if_neg (by unfold SWITCHABLE_ROM_BANK_START VRAM_START; omega)]
  rw [if_neg (by unfold SWITCHABLE_ROM_BANK_START VRAM_START; omega)]
  rw [if_neg (by unfold SWITCHABLE_RAM_BANK_START INTERNAL_RAM_START; omega)]
  rw [if_pos (by unfold INTERNAL_RAM_START INTERNAL_RAM_ECHO_START; omega)]
  rw [if_pos (by
    unfold INTERNAL_RAM_START INTERNAL_RAM_ECHO_SIZE OAM_START INTERNAL_RAM_ECHO_START
    omega)]
  rfl

/-- Echo-RAM addresses decode to the echo section. -/
theorem from_addr_echo (a : Nat) (h1 : 0xE000 ≤ a) (h2 : a < 0xFE00) :
    Bank.from_addr a = some (.InternalRamEcho, a - 0xE000) := by
  unfold Bank.from_addr
  rw [if_neg (by unfold ROM_BANK_START SWITCHABLE_ROM_BANK_START; omega)]
  rw [if_neg (by unfold SWITCHABLE_ROM_BANK_START VRAM_START; omega)]
  rw [if_neg (by unfold SWITCHABLE_ROM_BANK_START VRAM_START; omega)]
  rw [if_neg (by unfold SWITCHABLE_RAM_BANK_START INTERNAL_RAM_START; omega)]
  rw [if_neg (by unfold INTERNAL_RAM_START INTERNAL_RAM_ECHO_START; omega)]
  rw [if_pos (by unfold INTERNAL_RAM_ECHO_START OAM_START; omega)]
  rfl

/-- Addresses in the prohibited range decode to the `empty` section. -/
theorem from_addr_empty_range (a : Nat) (h1 : 0xFEA0 ≤ a) (h2 : a < 0xFF00) :
    Bank.from_addr a = some (.Empty, a - 0xFEA0) := by
  unfold Bank.from_addr
  rw [if_neg (by unfold ROM_BANK_START SWITCHABLE_ROM_BANK_START; omega)]
  rw [if_neg (by unfold SWITCHABLE_ROM_BANK_START VRAM_START; omega)]
  rw [if_neg (by unfold SWITCHABLE_ROM_BANK_START VRAM_START; omega)]
  rw [if_neg (by unfold SWITCHABLE_RAM_BANK_START INTERNAL_RAM_START; omega)]
  rw [if_neg (by unfold INTERNAL_RAM_START INTERNAL_RAM_ECHO_START; omega)]
  rw [if_neg (by unfold INTERNAL_RAM_ECHO_START OAM_START; omega)]
  rw [if_neg (by unfold OAM_START EMPTY_START; omega)]
  rw [if_pos (by unfold EMPTY_START IO_PORTS_START; omega)]
  rfl

/-- ROM-bank addresses decode to the ROM section. -/
theorem from_addr_rom (a : Nat) (h2 : a < 0x4000) :
    Bank.from_addr a = some (.Rom, a - 0x0000) := by
  unfold Bank.from_addr
  rw [if_pos (by unfold ROM_BANK_START SWITCHABLE_ROM_BANK_START; omega)]
  rfl

/-- Switchable-ROM addresses decode to the switchable ROM section. -/
theorem from_addr_switch_rom (a : Nat) (h1 : 0x4000 ≤ a) (h2 : a < 0x8000) :
    Bank.from_addr a = some (.SwitchableRom, a - 0x4000) := by
  unfold Bank.from_addr
  rw [if_neg (by unfold ROM_BANK_START SWITCHABLE_ROM_BANK_START; omega)]
  rw [if_pos (by unfold SWITCHABLE_ROM_BANK_START VRAM_START; omega)]
  rfl

/-- The VRAM address range decodes to no bank: the source's `VRAM_RANGE`
is the empty range `0x8000..0x4000`, so addresses `0x8000..0x9FFF` fall
through every test and take the `None` (interrupt-enable register) path. -/
theorem from_addr_vram_gap (a : Nat) (h1 : 0x8000 ≤ a) (h2 : a < 0xA000) :
    Bank.from_addr a = none := by
  unfold Bank.from_addr
  rw [if_neg (by unfold ROM_BANK_START SWITCHABLE_ROM_BANK_START; omega)]
  rw [if_neg (by unfold SWITCHABLE_ROM_BANK_START VRAM_START; omega)]
  rw [if_neg (by unfold SWITCHABLE_ROM_BANK_START VRAM_START; omega)]
  rw [if_neg (by unfold SWITCHABLE_RAM_BANK_START INTERNAL_RAM_START; omega)]
  rw [if_neg (by unfold INTERNAL_RAM_START INTERNAL_RAM_ECHO_START; omega)]
  rw [if_neg (by unfold INTERNAL_RAM_ECHO_START OAM_START; omega)]
  rw [if_neg (by unfold OAM_START EMPTY_START; omega)]
  rw [if_neg (by unfold EMPTY_START IO_PORTS_START; omega)]
  rw [if_neg (by unfold IO_PORTS_START EMPTY_TWO_START; omega)]
  rw [if_neg (by unfold EMPTY_TWO_START INTERNAL_RAM_TWO_START; omega)]
  rw [if_neg (by unfold INTERNAL_RAM_TWO_START INTERRUPT_ENABLE_REGISTER_START; omega)]

/-- Switchable-RAM addresses decode to the switchable RAM section. -/
theorem from_addr_switch_ram (a : Nat) (h1 : 0xA000 ≤ a) (h2 : a < 0xC000) :
    Bank.from_addr a = some (.SwitchableRam, a - 0xA000) := by
  unfold Bank.from_addr
  rw [if_neg (by unfold ROM_BANK_START SWITCHABLE_ROM_BANK_START; omega)]
  rw [if_neg (by unfold SWITCHABLE_ROM_BANK_START VRAM_START; omega)]
  rw [if_neg (by unfold SWITCHABLE_ROM_BANK_START VRAM_START; omega)]
  rw [if_pos (by unfold SWITCHABLE_RAM_BANK_START INTERNAL_RAM_START; omega)]
  rfl

/-- Work-RAM addresses at or above the echo cut-off decode to the internal
RAM section (with the work-RAM offset). -/
theorem from_addr_iram_high (a : Nat) (h1 : 0xDE00 ≤ a) (h2 : a < 0xE000) :
    Bank.from_addr a = some (.InternalRam, a - 0xC000) := by
  unfold Bank.from_addr
  rw [if_neg (by unfold ROM_BANK_START SWITCHABLE_ROM_BANK_START; omega)]
  rw [if_neg (by unfold SWITCHABLE_ROM_BANK_START VRAM_START; omega)]
  rw [if_neg (by unfold SWITCHABLE_ROM_BANK_START VRAM_START; omega)]
  rw [if_neg (by unfold SWITCHABLE_RAM_BANK_START INTERNAL_RAM_START; omega)]
  rw [if_pos (by unfold INTERNAL_RAM_START INTERNAL_RAM_ECHO_START; omega)]
  rw [if_neg (by
    unfold INTERNAL_RAM_START INTERNAL_RAM_ECHO_SIZE OAM_START INTERNAL_RAM_ECHO_START
    omega)]
  rfl

/-- OAM addresses decode to the OAM section. -/
theorem from_addr_oam (a : Nat) (h1 : 0xFE00 ≤ a) (h2 : a < 0xFEA0) :
    Bank.from_addr a = some (.Oam, a - 0xFE00) := by
  unfold Bank.from_addr
  rw [if_neg (by unfold ROM_BANK_START SWITCHABLE_ROM_BANK_START; omega)]
  rw [if_neg (by unfold SWITCHABLE_ROM_BANK_START VRAM_START; omega)]
  rw [if_neg (by unfold SWITCHABLE_ROM_BANK_START VRAM_START; omega)]
  rw [if_neg (by unfold SWITCHABLE_RAM_BANK_START INTERNAL_RAM_START; omega)]
  rw [if_neg (by unfold INTERNAL_RAM_START INTERNAL_RAM_ECHO_START; omega)]
  rw [if_neg (by unfold INTERNAL_RAM_ECHO_START OAM_START; omega)]
  rw [if_pos (by unfold OAM_START EMPTY_START; omega)]
  rfl

/-- I/O-port addresses decode to the I/O-ports section. -/
theorem from_addr_io (a : Nat) (h1 : 0xFF00 ≤ a) (h2 : a < 0xFF4C) :
    Bank.from_addr a = some (.IOPorts, a - 0xFF00) := by
  unfold Bank.from_addr
  rw [if_neg (by unfold ROM_BANK_START SWITCHABLE_ROM_BANK_START; omega)]
  rw [if_neg (by unfold SWITCHABLE_ROM_BANK_START VRAM_START; omega)]
  rw [if_neg (by unfold SWITCHABLE_ROM_BANK_START VRAM_START; omega)]
  rw [if_neg (by unfold SWITCHABLE_RAM_BANK_START INTERNAL_RAM_START; omega)]
  rw [if_neg (by unfold INTERNAL_RAM_START INTERNAL_RAM_ECHO_START; omega)]
  rw [if_neg (by unfold INTERNAL_RAM_ECHO_START OAM_START; omega)]
  rw [if_neg (by unfold OAM_START EMPTY_START; omega)]
  rw [if_neg (by unfold EMPTY_START IO_PORTS_START; omega)]
  rw [if_pos (by unfold IO_PORTS_START EMPTY_TWO_START; omega)]
  rfl

/-- Second empty-region addresses decode to the second empty section. -/
theorem from_addr_empty_two (a : Nat) (h1 : 0xFF4C ≤ a) (h2 : a < 0xFF80) :
    Bank.from_addr a = some (.EmptyTwo, a - 0xFF4C) := by
  unfold Bank.from_addr
  rw [if_neg (by unfold ROM_BANK_START SWITCHABLE_ROM_BANK_START; omega)]
  rw [if_neg (by unfold SWITCHABLE_ROM_BANK_START VRAM_START; omega)]
  rw [if_neg (by unfold SWITCHABLE_ROM_BANK_START VRAM_START; omega)]
  rw [if_neg (by unfold SWITCHABLE_RAM_BANK_START INTERNAL_RAM_START; omega)]
  rw [if_neg (by unfold INTERNAL_RAM_START INTERNAL_RAM_ECHO_START; omega)]
  rw [if_neg (by unfold INTERNAL_RAM_ECHO_START OAM_START; omega)]
  rw [if_neg (by unfold OAM_START EMPTY_START; omega)]
  rw [if_neg (by unfold EMPTY_START IO_PORTS_START; omega)]
  rw [if_neg (by unfold IO_PORTS_START EMPTY_TWO_START; omega)]
  rw [if_pos (by unfold EMPTY_TWO_START INTERNAL_RAM_TWO_START; omega)]
  rfl

/-- High-RAM addresses decode to the second internal RAM section. -/
theorem from_addr_iram_two (a : Nat) (h1 : 0xFF80 ≤ a) (h2 : a < 0xFFFF) :
    Bank.from_addr a = some (.InternalRamTwo, a - 0xFF80) := by
  unfold Bank.from_addr
  rw [if_neg (by unfold ROM_BANK_START SWITCHABLE_ROM_BANK_START; omega)]
  rw [if_neg (by unfold SWITCHABLE_ROM_BANK_START VRAM_START; omega)]
  rw [if_neg (by unfold SWITCHABLE_ROM_BANK_START VRAM_START; omega)]
  rw [if_neg (by unfold SWITCHABLE_RAM_BANK_START INTERNAL_RAM_START; omega)]
  rw [if_neg (by unfold INTERNAL_RAM_START INTERNAL_RAM_ECHO_START; omega)]
  rw [if_neg (by unfold INTERNAL_RAM_ECHO_START OAM_START; omega)]
  rw [if_neg (by unfold OAM_START EMPTY_START; omega)]
  rw [if_neg (by unfold EMPTY_START IO_PORTS_START; omega)]
  rw [if_neg (by unfold IO_PORTS_START EMPTY_TWO_START; omega)]
  rw [if_neg (by unfold EMPTY_TWO_START INTERNAL_RAM_TWO_START; omega)]
  rw [if_pos (by unfold INTERNAL_RAM_TWO_START INTERRUPT_ENABLE_REGISTER_START; omega)]
  rfl

/-! ## Pointwise behaviour of `Memory::get` / `Memory::put` on decoded banks -/

/-- Reading back the slot a `MemorySection::set` wrote returns the value. -/
theorem section_get_set (s : MemorySection) (o v : Nat) : (s.set o v).get o = v := by
  exact if_pos rfl

/-- A read whose address decodes to the echo bank reads the echo section. -/
theorem get_echo_eq (m : Memory) (a o : Nat)
    (h : Bank.from_addr a = some (.InternalRamEcho, o)) :
    m.get a = m.internal_ram_echo.get o := by
  unfold Memory.get
  rw [h]

/-- A write whose address decodes to the echo bank writes both the echo
section and the internal RAM section at the same offset. -/
theorem put_echo_eq (m : Memory) (a o v : Nat)
    (h : Bank.from_addr a = some (.InternalRamEcho, o)) :
    m.put a v = { m with internal_ram_echo := m.internal_ram_echo.set o v,
                         internal_ram := m.internal_ram.set o v } := by
  unfold Memory.put
  rw [h]

/-- A read whose address decodes to the `Empty` bank reads the `empty` section. -/
theorem get_empty_eq (m : Memory) (a o : Nat)
    (h : Bank.from_addr a = some (.Empty, o)) :
    m.get a = m.empty.get o := by
  unfold Memory.get
  rw [h]

/-- A write whose address decodes to the `Empty` bank writes the `empty` section. -/
theorem put_empty_eq (m : Memory) (a o v : Nat)
    (h : Bank.from_addr a = some (.Empty, o)) :
    m.put a v = { m with empty := m.empty.set o v } := by
  unfold Memory.put
  rw [h]

/-! ## Claim results -/

/-- C1: the claim that addresses 0x8000–0x9FFF dispatch to the VRAM
backing fails on the code. `VRAM_RANGE` is the empty range
`0x8000..0x4000`, so `Bank::from_addr` decodes no VRAM address; a write to
0x8000 lands in the interrupt-enable register (read back at 0xFFFF) and
the VRAM byte array is never touched. -/
theorem c1_vram_range_dispatches_to_ie :
    Bank.from_addr 0x8000 = none ∧ Bank.from_addr 0x9FFF = none ∧
    (Memory.default.put 0x8000 0xAB).interrupt_enable_register = 0xAB ∧
    (Memory.default.put 0x8000 0xAB).get 0xFFFF = 0xAB ∧
    (Memory.default.put 0x8000 0xAB).vram.get 0 = 0 := by
  refine ⟨?_, ?_, ?_, ?_, ?_⟩ <;> rfl

/-- C2: the claim that `Instruction::execute` always completes normally
fails on the code: the SUB/SBC/CP/DEC family (through the `todo!()`
helpers `sub` / `sub_carry`), `ADD HL,rr`, `ADD SP,e`, `DAA`, `HALT` and
`STOP` all abort. -/
theorem c2_execute_aborts_on_unfinished_arms :
    Instruction.execute (.Arithmetic (.SubImmediate 0x01)) Cpu.mkDefault = none ∧
    Instruction.execute (.Arithmetic (.SubCarryImmediate 0x01)) Cpu.mkDefault = none ∧
    Instruction.execute (.Arithmetic (.CmpImmediate 0x01)) Cpu.mkDefault = none ∧
    Instruction.execute (.Arithmetic (.DecRegister .B)) Cpu.mkDefault = none ∧
    Instruction.execute (.Arithmetic (.DecAddrHL)) Cpu.mkDefault = none ∧
    Instruction.execute (.Arithmetic (.AddHL .BC)) Cpu.mkDefault = none ∧
    Instruction.execute (.Arithmetic (.AddSPImmediate 0x01)) Cpu.mkDefault = none ∧
    Instruction.execute (.Misc .DecimalAdjustA) Cpu.mkDefault = none ∧
    Instruction.execute (.Misc .Halt) Cpu.mkDefault = none ∧
    Instruction.execute (.Misc .Stop) Cpu.mkDefault = none :=
  ⟨rfl, rfl, rfl, rfl, rfl, rfl, rfl, rfl, rfl, rfl⟩

/-- C3: the claimed ADD half-carry rule fails on the code. The source's
half-carry expression parses as `((a & (0x0F + b)) & 0x0F) > 0x0F`, which
is never true; at the claim's own example `A = 0x0F`, operand `0x01` the
code produces H = 0 (the claim requires H = 1), and at the spec's
boundary example `0x3A + 0xC6` it produces H = 0 as well. -/
theorem c3_add_half_carry_flag_mismatch :
    ArithmeticInstruction.add 0x0F 0x01 =
      some (0x10, ⟨false, false, false, false⟩) ∧
    ArithmeticInstruction.add 0x3A 0xC6 =
      some (0x00, ⟨true, false, false, true⟩) := by
  exact ⟨rfl, rfl⟩

/-- C4: the claim that 16-bit immediates are fetched little-endian fails
on the code. With bytes `0x34` then `0x12` in memory, `Cpu::advance_long`
returns 0x3412 (the byte at the lower address becomes the high byte),
while `Cpu::get_long_at` over the same bytes is little-endian (0x1234);
a fetched-and-executed `JP nn` with operand bytes `lo = 0x34`, `hi = 0x12`
leaves PC = 0xC334, not the claimed 0x1234. -/
theorem c4_long_immediate_fetched_big_endian :
    cpuLE.advance_long.2 = 0x3412 ∧
    (Cpu.get_long_at cpuLE 0).map Prod.snd = some 0x1234 ∧
    (fetchAndExecute cpuJP).map (fun c => c.registers.pc) = some 0xC334 := by
  refine ⟨rfl, ?_, ?_⟩ <;> rfl

/-- C5 (counterexample): the claim that F's low nibble is zero in every
reachable state fails. Fetching and executing `POP AF` (opcode 0xF1) with
0xFF at the top of the stack stores 0xFF into F unmasked; the decoded
16-bit load of opcode 0x31 writes AF unmasked as well. -/
theorem c5_f_low_nibble_counterexample :
    (fetchAndExecute cpuPopAF).map (fun c => c.registers.get .F) = some 0xFF ∧
    (fetchAndExecute cpuLdAF).map (fun c => c.registers.get .F) = some 0xFF := by
  exact ⟨rfl, rfl⟩

/-- C5 (amended): no write path to F masks bits 3..0. A 16-bit write to
the AF pair stores the full value, so reading F afterwards returns the
written value's low byte — its low nibble included. -/
theorem c5_af_writes_store_low_nibble_unmasked (r : Registers) (v : Nat) :
    (r.set_long .AF v).get .F = v % 256 := by
  show getLow (v % 0x10000) = v % 256
  unfold getLow
  exact Nat.mod_mod_of_dvd v (by norm_num)

/-- C6: echo RAM mirrors work RAM in both directions: a write to
`A ∈ [0xC000, 0xDDFF]` is read back at `A + 0x2000`, and a write to
`A + 0x2000` is read back at `A`. -/
theorem c6_echo_ram_mirrors_work_ram (m : Memory) (A v : Nat)
    (h1 : 0xC000 ≤ A) (h2 : A ≤ 0xDDFF) :
    (m.put A v).get (A + 0x2000) = v ∧ (m.put (A + 0x2000) v).get A = v := by
  have hw := from_addr_work A h1 (by omega)
  have he := from_addr_echo (A + 0x2000) (by omega) (by omega)
  have hoff : A + 0x2000 - 0xE000 = A - 0xC000 := by omega
  rw [hoff] at he
  constructor
  · rw [put_echo_eq m A (A - 0xC000) v hw]
    rw [get_echo_eq _ (A + 0x2000) (A - 0xC000) he]
    show (m.internal_ram_echo.set (A - 0xC000) v).get (A - 0xC000) = v
    exact section_get_set _ _ _
  · rw [put_echo_eq m (A + 0x2000) (A - 0xC000) v he]
    rw [get_echo_eq _ A (A - 0xC000) hw]
    show (m.internal_ram_echo.set (A - 0xC000) v).get (A - 0xC000) = v
    exact section_get_set _ _ _

/-- C6 witness: the mirroring at the concrete address 0xC100 with byte 0xAB. -/
theorem c6_echo_ram_mirrors_work_ram_witness :
    (0xC000 ≤ 0xC100 ∧ 0xC100 ≤ 0xDDFF) ∧
    (Memory.default.put 0xC100 0xAB).get (0xC100 + 0x2000) = 0xAB ∧
    (Memory.default.put (0xC100 + 0x2000) 0xAB).get 0xC100 = 0xAB :=
  ⟨⟨by decide, by decide⟩,
   c6_echo_ram_mirrors_work_ram Memory.default 0xC100 0xAB (by decide) (by decide)⟩

/-- C7 (counterexample): the claim that reads from 0xFEA0–0xFEFF return
0xFF and writes are dropped fails on the code: a fresh memory reads 0 at
0xFEA0, and a write of 0x12 there is stored and read back. -/
theorem c7_prohibited_range_counterexample :
    Memory.default.get 0xFEA0 = 0 ∧
    (Memory.default.put 0xFEA0 0x12).get 0xFEA0 = 0x12 := by
  exact ⟨rfl, rfl⟩

/-- C7 (amended): accesses to 0xFEA0–0xFEFF are not an error — the range
is backed by its own `empty` section: a write is stored and read back, and
a fresh memory reads 0 there (not 0xFF). -/
theorem c7_prohibited_range_backed_by_section (m : Memory) (a v : Nat)
    (h1 : 0xFEA0 ≤ a) (h2 : a ≤ 0xFEFF) :
    (m.put a v).get a = v ∧ Memory.default.get a = 0 := by
  have hf := from_addr_empty_range a h1 (by omega)
  constructor
  · rw [put_empty_eq m a (a - 0xFEA0) v hf]
    rw [get_empty_eq _ a (a - 0xFEA0) hf]
    show (m.empty.set (a - 0xFEA0) v).get (a - 0xFEA0) = v
    exact section_get_set _ _ _
  · rw [get_empty_eq Memory.default a (a - 0xFEA0) hf]
    rfl

/-- C7 witness: the amended behaviour at the concrete address 0xFEA5. -/
theorem c7_prohibited_range_backed_by_section_witness :
    (0xFEA0 ≤ 0xFEA5 ∧ 0xFEA5 ≤ 0xFEFF) ∧
    (Memory.default.put 0xFEA5 0x55).get 0xFEA5 = 0x55 ∧
    Memory.default.get 0xFEA5 = 0 :=
  ⟨⟨by decide, by decide⟩,
   c7_prohibited_range_backed_by_section Memory.default 0xFEA5 0x55 (by decide) (by decide)⟩

/-- C8: the claim that SP/address arithmetic wraps modulo 2^16 with no
operation trapping fails on the code: `push_stack` computes `sp - 2` with
an unchecked subtraction (PUSH at SP = 0 aborts instead of wrapping to
0xFFFE), `pop_stack` computes `sp + 2` unchecked (POP at SP = 0xFFFE
aborts instead of wrapping to 0), and `get_long_at 0xFFFF` computes
`addr + 1` unchecked (aborts instead of reading the high byte at 0x0000). -/
theorem c8_stack_pointer_arithmetic_aborts_at_boundary :
    Cpu.push_stack Cpu.mkDefault 0x1234 = none ∧
    Cpu.pop_stack cpuSpTop = none ∧
    Cpu.get_long_at Cpu.mkDefault 0xFFFF = none :=
  ⟨rfl, rfl, rfl⟩

/-- C9: the claimed T-cycle costs for the `(HL)` bit instructions fail on
the code. Counting 4 T-cycles per `cycle()` call from `Instruction::fetch`
through `execute`, `BIT 0,(HL)` consumes 16 (not the claimed 12) and
`SET 0,(HL)` / `RES 0,(HL)` consume 20 (not the claimed 16): the prefixed
fetch reads two bytes, and `BitInstruction::execute` adds one more
`cycle()` on top of its memory traffic. -/
theorem c9_bit_hl_cycle_counts :
    (Instruction.fetch cpuBIT).map Prod.snd =
      some (some (.Bit (.BitAddrHL .First))) ∧
    (fetchAndExecute cpuBIT).map Cpu.cycles = some 16 ∧
    (Instruction.fetch cpuSET).map Prod.snd =
      some (some (.Bit (.SetAddrHL .First))) ∧
    (fetchAndExecute cpuSET).map Cpu.cycles = some 20 ∧
    (fetchAndExecute cpuRES).map Cpu.cycles = some 20 := by
  refine ⟨?_, ?_, ?_, ?_, ?_⟩ <;> rfl

/-- C10: `Bank::from_addr` is total and in-bounds on the 16-bit address
space: whenever it returns a bank and an offset, the offset is strictly
below that bank's backing-array size, so `Memory::get` / `Memory::put`
never index out of bounds (every other address takes the IE-register
fallback). -/
theorem c10_decoded_offsets_in_bounds (addr : Nat) (h16 : addr < 0x10000)
    (b : Bank) (o : Nat) (h : Bank.from_addr addr = some (b, o)) : o < b.size := by
  by_cases k1 : addr < 0x4000
  · rw [from_addr_rom addr k1] at h
    injection h with h'
    injection h' with hb ho
    subst hb; subst ho
    simp only [Bank.size]
    unfold ROM_BANK_SIZE ROM_BANK_START SWITCHABLE_ROM_BANK_START
    omega
  by_cases k2 : addr < 0x8000
  · rw [from_addr_switch_rom addr (by omega) k2] at h
    injection h with h'
    injection h' with hb ho
    subst hb; subst ho
    simp only [Bank.size]
    unfold SWITCHABLE_ROM_BANK_SIZE SWITCHABLE_ROM_BANK_START VRAM_START
    omega
  by_cases k3 : addr < 0xA000
  · rw [from_addr_vram_gap addr (by omega) k3] at h
    exact Option.noConfusion h
  by_cases k4 : addr < 0xC000
  · rw [from_addr_switch_ram addr (by omega) k4] at h
    injection h with h'
    injection h' with hb ho
    subst hb; subst ho
    simp only [Bank.size]
    unfold SWITCHABLE_RAM_BANK_SIZE SWITCHABLE_RAM_BANK_START INTERNAL_RAM_START
    omega
  by_cases k5 : addr < 0xDE00
  · rw [from_addr_work addr (by omega) k5] at h
    injection h with h'
    injection h' with hb ho
    subst hb; subst ho
    simp only [Bank.size]
    unfold INTERNAL_RAM_ECHO_SIZE INTERNAL_RAM_ECHO_START OAM_START
    omega
  by_cases k6 : addr < 0xE000
  · rw [from_addr_iram_high addr (by omega) k6] at h
    injection h with h'
    injection h' with hb ho
    subst hb; subst ho
    simp only [Bank.size]
    unfold INTERNAL_RAM_SIZE INTERNAL_RAM_START INTERNAL_RAM_ECHO_START
    omega
  by_cases k7 : addr < 0xFE00
  · rw [from_addr_echo addr (by omega) k7] at h
    injection h with h'
    injection h' with hb ho
    subst hb; subst ho
    simp only [Bank.size]
    unfold INTERNAL_RAM_ECHO_SIZE INTERNAL_RAM_ECHO_START OAM_START
    omega
  by_cases k8 : addr < 0xFEA0
  · rw [from_addr_oam addr (by omega) k8] at h
    injection h with h'
    injection h' with hb ho
    subst hb; subst ho
    simp only [Bank.size]
    unfold OAM_SIZE OAM_START EMPTY_START
    omega
  by_cases k9 : addr < 0xFF00
  · rw [from_addr_empty_range addr (by omega) k9] at h
    injection h with h'
    injection h' with hb ho
    subst hb; subst ho
    simp only [Bank.size]
    unfold EMPTY_SIZE EMPTY_START IO_PORTS_START
    omega
  by_cases k10 : addr < 0xFF4C
  · rw [from_addr_io addr (by omega) k10] at h
    injection h with h'
    injection h' with hb ho
    subst hb; subst ho
    simp only [Bank.size]
    unfold IO_PORTS_SIZE IO_PORTS_START EMPTY_TWO_START
    omega
  by_cases k11 : addr < 0xFF80
  · rw [from_addr_empty_two addr (by omega) k11] at h
    injection h with h'
    injection h' with hb ho
    subst hb; subst ho
    simp only [Bank.size]
    unfold EMPTY_TWO_SIZE EMPTY_TWO_START INTERNAL_RAM_TWO_START
    omega
  by_cases k12 : addr < 0xFFFF
  · rw [from_addr_iram_two addr (by omega) k12] at h
    injection h with h'
    injection h' with hb ho
    subst hb; subst ho
    simp only [Bank.size]
    unfold INTERNAL_RAM_TWO_SIZE INTERNAL_RAM_TWO_START INTERRUPT_ENABLE_REGISTER_START
    omega
  have haddr : addr = 0xFFFF := by omega
  subst haddr
  have hn : Bank.from_addr 0xFFFF = none := rfl
  rw [hn] at h
  exact Option.noConfusion h

/-- C10 witness: the ROM address 0x1234 decodes to the ROM bank with an
in-bounds offset. -/
theorem c10_decoded_offsets_in_bounds_witness :
    (0x1234 : Nat) < 0x10000 ∧ (0x1234 : Nat) < Bank.size .Rom :=
  ⟨by decide, c10_decoded_offsets_in_bounds 0x1234 (by decide) .Rom 0x1234 rfl⟩

end GB
